import Mathlib

/-!
Shallow embedding of the pipeline-orchestration core of the
`yprite/RemoteDeveloper` repository, together with theorems settling the
spec claims about it.

Embedded components (each definition names the Python source it mirrors):
* `backend/workflow/workflow_definition.py` — declarative workflow graphs.
* `backend/models/work_item.py`, `backend/models/event.py` — WorkItem and
  WorkflowEvent records.
* `backend/workflow/orchestrator.py` — the state-machine orchestrator
  (`handle_event`, `_handle_approval_event`, `_get_combined_approval_event`).
* `backend/core/worker.py` — the pipeline stepper (`process_queues_once`).
* `backend/main.py` — the mock `RequirementAgent` and the `/event/clarify`
  resume operation.
* `backend/core/pr_wait_service.py` / `pr_review_service.py` — the PR wait
  poller (`poll_once`) and review-feedback selection.
* `backend/core/redis_client.py` — queue push/pop with schema validation.

Python dictionaries are modelled as association lists (`List (String × α)`)
when the claims inspect their contents, and as functions `String → Option α`
for the Redis key/value store.  Timestamps are threaded as opaque strings
(`now` parameters); real wall-clock values never influence control flow
except the poller age check, which uses natural-number seconds.
External collaborators (LLM handlers, the GitHub client, callbacks) are
parameters, exactly as §6 of the spec declares them to be out of scope.
-/

namespace RemoteDev

/-- Update of a `String`-keyed store (Redis `SET key v`). -/
def setKey {β : Type} (m : String → Option β) (k : String) (v : β) : String → Option β :=
  fun x => if x = k then some v else m x

/-- Deletion in a `String`-keyed store (Redis `DEL key`). -/
def delKey {β : Type} (m : String → Option β) (k : String) : String → Option β :=
  fun x => if x = k then none else m x

/-- Append to a named FIFO list (Redis `RPUSH`). -/
def pushQueue {β : Type} (qs : String → List β) (k : String) (v : β) : String → List β :=
  fun x => if x = k then qs x ++ [v] else qs x

/-- Replace a named FIFO list wholesale (used after an `LPOP`). -/
def setQueue {β : Type} (qs : String → List β) (k : String) (l : List β) : String → List β :=
  fun x => if x = k then l else qs x

/-- First-match lookup in an association list, mirroring Python `dict.get`. -/
def dget {α : Type} (d : List (String × α)) (k : String) : Option α :=
  match d with
  | [] => none
  | (k2, v) :: rest => if k2 = k then some v else dget rest k

/-- Python `dict[k] = v`: replace the binding in place if present, else append
(insertion order is preserved, as in CPython dicts). -/
def dset {α : Type} (d : List (String × α)) (k : String) (v : α) : List (String × α) :=
  match d with
  | [] => [(k, v)]
  | (k2, v2) :: rest => if k2 = k then (k, v) :: rest else (k2, v2) :: dset rest k v

/-- Remove every binding of a key (Python `del d[k]` under unique keys). -/
def dremove {α : Type} (d : List (String × α)) (k : String) : List (String × α) :=
  d.filter (fun e => e.1 ≠ k)

/-!
## Workflow definitions — `backend/workflow/workflow_definition.py`
-/

/-- `Action` dataclass: enqueue a job for an agent with parameters. -/
structure Action where
  enqueueAgent : String
  params : List (String × String)
deriving DecidableEq, Repr

/-- `Transition` dataclass: target state plus extra actions. -/
structure WfTransition where
  toState : String
  actions : List Action
deriving DecidableEq, Repr

/-- `StateDefinition` dataclass of `workflow_definition.py`. -/
structure StateDefinition where
  onEnter : List Action
  transitions : List (String × WfTransition)
  requiresApprovals : List String
deriving DecidableEq, Repr

/-- `WorkflowDefinition` dataclass. -/
structure WorkflowDefinition where
  name : String
  initialState : String
  states : List (String × StateDefinition)
deriving DecidableEq, Repr

/-- The `PRODUCT_DEV_V1` workflow literal, transcribed state by state. -/
def PRODUCT_DEV_V1 : WorkflowDefinition :=
  { name := "product_dev_v1"
    initialState := "REQUIREMENTS"
    states :=
      [ ("REQUIREMENTS",
          { onEnter := [{ enqueueAgent := "REQUIREMENT", params := [] }]
            transitions :=
              [ ("REQUIREMENTS_COMPLETED", { toState := "PLANNING", actions := [] })
              , ("REQUIREMENTS_NEEDS_MORE_INFO", { toState := "REQUIREMENTS", actions := [] }) ]
            requiresApprovals := [] })
      , ("PLANNING",
          { onEnter := [{ enqueueAgent := "PLAN", params := [] }]
            transitions :=
              [ ("PLAN_COMPLETED", { toState := "DESIGN", actions := [] })
              , ("PLAN_SCOPE_CHANGED", { toState := "REQUIREMENTS", actions := [] }) ]
            requiresApprovals := [] })
      , ("DESIGN",
          { onEnter :=
              [ { enqueueAgent := "UXUI", params := [] }
              , { enqueueAgent := "ARCHITECT", params := [] } ]
            transitions :=
              [ ("UX_APPROVED", { toState := "DESIGN", actions := [] })
              , ("ARCH_APPROVED", { toState := "DESIGN", actions := [] })
              , ("UX_ARCH_DONE", { toState := "CODING", actions := [] })
              , ("DESIGN_REJECTED", { toState := "REQUIREMENTS", actions := [] }) ]
            requiresApprovals := ["UX_APPROVED", "ARCH_APPROVED"] })
      , ("CODING",
          { onEnter := [{ enqueueAgent := "CODE", params := [] }]
            transitions :=
              [ ("CODE_READY_FOR_QA", { toState := "QA", actions := [] })
              , ("CODE_NEEDS_REFACTOR", { toState := "REFACTOR", actions := [] }) ]
            requiresApprovals := [] })
      , ("REFACTOR",
          { onEnter := [{ enqueueAgent := "REFACTORING", params := [] }]
            transitions := [ ("REFACTOR_DONE", { toState := "CODING", actions := [] }) ]
            requiresApprovals := [] })
      , ("QA",
          { onEnter := [{ enqueueAgent := "TESTQA", params := [] }]
            transitions :=
              [ ("QA_PASSED", { toState := "DOC", actions := [] })
              , ("QA_FAILED", { toState := "CODING", actions := [] })
              , ("QA_SCOPE_CHANGE", { toState := "REQUIREMENTS", actions := [] }) ]
            requiresApprovals := [] })
      , ("DOC",
          { onEnter := [{ enqueueAgent := "DOC", params := [] }]
            transitions := [ ("DOC_DONE", { toState := "RELEASE", actions := [] }) ]
            requiresApprovals := [] })
      , ("RELEASE",
          { onEnter := [{ enqueueAgent := "RELEASE", params := [] }]
            transitions :=
              [ ("RELEASED", { toState := "MONITORING", actions := [] })
              , ("RELEASE_REJECTED", { toState := "QA", actions := [] }) ]
            requiresApprovals := [] })
      , ("MONITORING",
          { onEnter := [{ enqueueAgent := "MONITORING", params := [] }]
            transitions :=
              [ ("INCIDENT_HOTFIX", { toState := "CODING", actions := [] })
              , ("NEW_FEATURE_IDEA", { toState := "REQUIREMENTS", actions := [] })
              , ("MONITORING_COMPLETE", { toState := "DONE", actions := [] }) ]
            requiresApprovals := [] })
      , ("DONE", { onEnter := [], transitions := [], requiresApprovals := [] }) ] }

/-- `WORKFLOW_REGISTRY` of `workflow_definition.py`. -/
def WORKFLOW_REGISTRY : List (String × WorkflowDefinition) :=
  [("product_dev_v1", PRODUCT_DEV_V1)]

/-!
## WorkItem and WorkflowEvent — `backend/models`
-/

/-- One entry of `WorkItem.history` (`add_history` appends these). -/
structure WIHistoryEntry where
  state : String
  timestamp : String
  message : String
deriving DecidableEq, Repr

/-- The `WorkItem` dataclass of `backend/models/work_item.py`.  Timestamps are
opaque strings; `meta` is an opaque key/value bag. -/
structure WorkItem where
  id : String
  title : String
  currentState : String
  workflowName : String
  meta : List (String × String)
  approvalFlags : List (String × Bool)
  createdAt : String
  updatedAt : String
  history : List WIHistoryEntry
deriving DecidableEq, Repr

/-- `WorkItem.add_history`: append an entry and refresh `updated_at`. -/
def WorkItem.addHistory (wi : WorkItem) (state message now : String) : WorkItem :=
  { wi with
      history := wi.history ++ [{ state := state, timestamp := now, message := message }]
      updatedAt := now }

/-- Python `work_item.approval_flags.get(name, False)`. -/
def flagGet (flags : List (String × Bool)) (name : String) : Bool :=
  (dget flags name).getD false

/-- The `WorkflowEvent` dataclass of `backend/models/event.py`. -/
structure WorkflowEvent where
  name : String
  workItemId : String
  payload : List (String × String)
  createdAt : String
  source : String
deriving DecidableEq, Repr

/-!
## Orchestrator — `backend/workflow/orchestrator.py`

The orchestrator persists WorkItems under Redis keys `workitem:{id}` and
enqueues agent jobs onto lists `queue:{AGENT}`.  Both live in one Redis
instance; we model them as the two fields of `OrchState` (the key
namespaces are disjoint, as §5 of the spec notes).  The `workitem:index`
set only serves the listing endpoint and is not modelled.
-/

/-- A job pushed by `Orchestrator.enqueue_agent_job`. -/
structure AgentJob where
  workItemId : String
  agent : String
  payload : List (String × String)
  createdAt : String
deriving DecidableEq, Repr

/-- Persistent state touched by the orchestrator. -/
structure OrchState where
  items : String → Option WorkItem
  queues : String → List AgentJob

/-- `Orchestrator.save_work_item`. -/
def saveWorkItem (st : OrchState) (wi : WorkItem) : OrchState :=
  { st with items := setKey st.items ("workitem:" ++ wi.id) wi }

/-- `Orchestrator.load_work_item`. -/
def loadWorkItem (st : OrchState) (workItemId : String) : Option WorkItem :=
  st.items ("workitem:" ++ workItemId)

/-- `Orchestrator.enqueue_agent_job`. -/
def enqueueAgentJob (st : OrchState) (agentName workItemId : String)
    (params : List (String × String)) (now : String) : OrchState :=
  { st with
      queues := pushQueue st.queues ("queue:" ++ agentName)
        { workItemId := workItemId, agent := agentName, payload := params, createdAt := now } }

/-- `Orchestrator._execute_actions`: each action with a truthy
`enqueue_agent` enqueues a job. -/
def executeActions (st : OrchState) (wi : WorkItem) (actions : List Action) (now : String) :
    OrchState :=
  actions.foldl
    (fun acc a => if a.enqueueAgent ≠ "" then enqueueAgentJob acc a.enqueueAgent wi.id a.params now else acc)
    st

/-- Run the `on_enter` actions of the WorkItem's (new) current state, as the
tail of `handle_event` and of `_handle_approval_event` do. -/
def execOnEnter (st : OrchState) (wf : WorkflowDefinition) (wi : WorkItem) (now : String) :
    OrchState :=
  match dget wf.states wi.currentState with
  | some nsd => executeActions st wi nsd.onEnter now
  | none => st

/-- Set equality of the approval lists, mirroring the `frozenset` comparison
in `_get_combined_approval_event`. -/
def sameStringSet (xs ys : List String) : Bool :=
  xs.all (fun x => ys.contains x) && ys.all (fun y => xs.contains y)

/-- `Orchestrator._get_combined_approval_event`: the static table mapping
`frozenset({UX_APPROVED, ARCH_APPROVED})` to `UX_ARCH_DONE`. -/
def getCombinedApprovalEvent (sd : StateDefinition) : Option String :=
  if sameStringSet sd.requiresApprovals ["UX_APPROVED", "ARCH_APPROVED"] then
    some "UX_ARCH_DONE"
  else
    none

/-- Python `repr` of a list of strings, used in the waiting message. -/
def pyStrList (xs : List String) : String :=
  "[" ++ String.intercalate ", " (xs.map (fun s => "\x27" ++ s ++ "\x27")) ++ "]"

/-- Ghost observation of which branch of `handle_event` fired; carried next
to the `(success, message)` pair so theorems can discriminate outcomes. -/
inductive OrchOutcome where
  | workItemMissing
  | workflowMissing
  | invalidState
  | invalidTransition
  | approvalRecorded (pending : List String)
  | combinedTransition (fromState toState : String)
  | transitioned (fromState toState : String)
deriving DecidableEq, Repr

/-- Result quadruple of the orchestrator entry points: new store, the Python
`(success, message)` pair, and the ghost outcome. -/
abbrev OrchResult := OrchState × Bool × String × OrchOutcome

/-- Save-and-wait tail of `_handle_approval_event` (executed when not all
approvals are in, or no combined transition applies). -/
def approvalWaitingResult (st : OrchState) (sd : StateDefinition) (wi : WorkItem)
    (evName : String) : OrchResult :=
  let st1 := saveWorkItem st wi
  let pending := sd.requiresApprovals.filter (fun a => !(flagGet wi.approvalFlags a))
  (st1, true, "Approval " ++ evName ++ " recorded. Waiting for: " ++ pyStrList pending,
    .approvalRecorded pending)

/-- The combined-transition selection inside `_handle_approval_event`
(lines 233-237): look up the synthesized combined event; the transition
applies only when it exists and is not a self-loop. -/
def combinedTransitionFor (sd : StateDefinition) (wi2 : WorkItem) : Option WfTransition :=
  match getCombinedApprovalEvent sd with
  | some combinedName =>
    match dget sd.transitions combinedName with
    | some t => if t.toState ≠ wi2.currentState then some t else none
    | none => none
  | none => none

/-- The combined-transition body of `_handle_approval_event` (lines 238-257):
`wi2` is the WorkItem with the new approval flag and history entry already
applied. -/
def combinedApprovalResult (st : OrchState) (wf : WorkflowDefinition) (wi2 : WorkItem)
    (t : WfTransition) (now : String) : OrchResult :=
  let prev := wi2.currentState
  let wi4 := WorkItem.addHistory
    { wi2 with currentState := t.toState, approvalFlags := [] }
    t.toState ("All approvals received, transitioned from " ++ prev) now
  let st1 := saveWorkItem st wi4
  let st2 := execOnEnter st1 wf wi4 now
  (st2, true, "All approvals received. Transitioned to " ++ wi4.currentState,
    .combinedTransition prev t.toState)

/-- `Orchestrator._handle_approval_event`.  Returns `none` to continue normal
processing (the event is not one of the required approvals). -/
def handleApprovalEvent (st : OrchState) (wf : WorkflowDefinition) (sd : StateDefinition)
    (wi : WorkItem) (ev : WorkflowEvent) (now : String) : Option OrchResult :=
  if sd.requiresApprovals.contains ev.name then
    let wi2 := WorkItem.addHistory
      { wi with approvalFlags := dset wi.approvalFlags ev.name true }
      wi.currentState ("Approval received: " ++ ev.name) now
    if sd.requiresApprovals.all (fun a => flagGet wi2.approvalFlags a) then
      match combinedTransitionFor sd wi2 with
      | some t => some (combinedApprovalResult st wf wi2 t now)
      | none => some (approvalWaitingResult st sd wi2 ev.name)
    else
      some (approvalWaitingResult st sd wi2 ev.name)
  else
    none

/-- The ordinary-transition tail of `handle_event` (lines 173-201): set the
new state, append history, clear flags when leaving an approval state, save,
run the transition's actions and the entered state's `on_enter` actions. -/
def normalTransitionResult (st : OrchState) (wf : WorkflowDefinition) (sd : StateDefinition)
    (wi : WorkItem) (ev : WorkflowEvent) (t : WfTransition) (now : String) : OrchResult :=
  let prev := wi.currentState
  let wi2 := WorkItem.addHistory { wi with currentState := t.toState }
    t.toState ("Transitioned from " ++ prev ++ " via " ++ ev.name) now
  let wi3 := if sd.requiresApprovals.isEmpty then wi2
             else { wi2 with approvalFlags := [] }
  let st1 := saveWorkItem st wi3
  let st2 := executeActions st1 wi3 t.actions now
  let st3 := execOnEnter st2 wf wi3 now
  (st3, true, "Transitioned to " ++ wi3.currentState, .transitioned prev t.toState)

/-- `Orchestrator.handle_event`: load the WorkItem, dispatch approval events,
otherwise look the event up in the current state's transition table. -/
def handleEvent (st : OrchState) (ev : WorkflowEvent) (now : String) : OrchResult :=
  match loadWorkItem st ev.workItemId with
  | none => (st, false, "WorkItem not found: " ++ ev.workItemId, .workItemMissing)
  | some wi =>
    match dget WORKFLOW_REGISTRY wi.workflowName with
    | none => (st, false, "Workflow not found: " ++ wi.workflowName, .workflowMissing)
    | some wf =>
      match dget wf.states wi.currentState with
      | none => (st, false, "Invalid state: " ++ wi.currentState, .invalidState)
      | some sd =>
        let approvalResult :=
          if sd.requiresApprovals.isEmpty then none
          else handleApprovalEvent st wf sd wi ev now
        match approvalResult with
        | some r => r
        | none =>
          match dget sd.transitions ev.name with
          | none =>
            (st, false,
              "Invalid transition: state=" ++ wi.currentState ++ ", event=" ++ ev.name,
              .invalidTransition)
          | some t => normalTransitionResult st wf sd wi ev t now

/-!
## Task envelope — the `AgentEvent` schema of `backend/core/schemas.py`

The envelope travels as a JSON dict in Python; we give it the structured
shape the schema declares.  `data` and `context` are opaque string-keyed
bags (`data` values may be JSON `null`, hence `Option String`).
-/

/-- `EventMeta` of `schemas.py`. -/
structure EventMeta where
  eventId : String
  timestamp : String
  source : String
  version : String
deriving DecidableEq, Repr

/-- `TaskData` of `schemas.py` — the mutable control block of an envelope. -/
structure TaskData where
  title : String
  taskType : String
  status : String
  currentStage : String
  originalPrompt : String
  needsClarification : Bool
  clarificationQuestion : Option String
  needsApproval : Bool
  approvalMessage : Option String
  hasError : Bool
  errorMessage : Option String
  gitContext : Option (List (String × String))
deriving DecidableEq, Repr

/-- `HistoryEntry` of `schemas.py`. -/
structure HistoryEntry where
  stage : String
  timestamp : String
  message : String
  outputSummary : Option String
deriving DecidableEq, Repr

/-- The complete `AgentEvent` envelope. -/
structure AgentEvent where
  meta : EventMeta
  context : List (String × String)
  task : TaskData
  data : List (String × Option String)
  history : List HistoryEntry
deriving DecidableEq, Repr

/-!
## Pipeline stepper — `backend/core/worker.py`

`process_queues_once` drains one envelope per non-empty stage queue in
`AGENT_ORDER`, calls the stage handler, and interprets the result.  Stage
handlers are external collaborators (LLM-backed in `backend/agents`), so the
registry is a parameter; a handler that raises is modelled by
`process` returning `.error`, which the worker's `try/except` catches.
The SQLite task tables (`create_task` / `update_task_status` /
`add_task_event` of `backend/core/database.py`), the in-memory log of
`logging_config.add_log`, and Telegram notifications are carried as fields
of `WorkerState` so the durable side effects are observable.
-/

/-- A stage-handler capability: `name`, `display_name`, `next_agent`,
`process` (returning `.error` models an uncaught Python exception). -/
structure AgentImpl where
  name : String
  displayName : String
  nextAgent : Option String
  process : AgentEvent → Except String AgentEvent

/-- One row of the SQLite `task_history` table (columns the core touches). -/
structure TaskRow where
  originalPrompt : String
  status : String
  currentStage : String
deriving DecidableEq, Repr

/-- One row of the SQLite `task_events` table. -/
structure TaskEventRec where
  taskId : String
  agent : String
  status : String
  message : Option String
deriving DecidableEq, Repr

/-- One entry of the in-memory log (`logging_config.add_log`). -/
structure LogRec where
  agent : String
  message : String
  status : String
deriving DecidableEq, Repr

/-- Shared mutable state seen by the worker, the resume endpoints and the
queue store: Redis stage queues, Redis `waiting:*` keys, the task tables,
logs, and sent notifications. -/
structure WorkerState where
  queues : String → List AgentEvent
  waiting : String → Option AgentEvent
  tasks : String → Option TaskRow
  taskEvents : List TaskEventRec
  logs : List LogRec
  notifications : List (String × String)

/-- `database.create_task`: INSERT, a duplicate key is ignored
(`IntegrityError` caught).  New rows get the schema defaults. -/
def createTask (st : WorkerState) (taskId prompt : String) : WorkerState :=
  match st.tasks taskId with
  | some _ => st
  | none =>
    let row : TaskRow := { originalPrompt := prompt, status := "PENDING", currentStage := "REQUIREMENT" }
    { st with tasks := setKey st.tasks taskId row }

/-- `database.update_task_status`: UPDATE of an existing row; the stage
column is only written when `current_stage` is truthy. -/
def updateTaskStatus (st : WorkerState) (taskId status : String) (stage : Option String) :
    WorkerState :=
  match st.tasks taskId with
  | none => st
  | some row =>
    let row2 :=
      match stage with
      | some s =>
        if s.isEmpty then { row with status := status }
        else { row with status := status, currentStage := s }
      | none => { row with status := status }
    { st with tasks := setKey st.tasks taskId row2 }

/-- `database.add_task_event`: unconditional INSERT. -/
def addTaskEvent (st : WorkerState) (taskId agent status : String) (message : Option String) :
    WorkerState :=
  { st with taskEvents := st.taskEvents ++ [{ taskId := taskId, agent := agent, status := status, message := message }] }

/-- `logging_config.add_log`: append, capped at `MAX_LOGS = 200` entries. -/
def addLog (st : WorkerState) (agent message status : String) : WorkerState :=
  let logs2 := st.logs ++ [{ agent := agent, message := message, status := status }]
  { st with logs := if logs2.length > 200 then logs2.tail else logs2 }

/-- Python rendering of an optional string inside an f-string (`None` when
absent), used for the notification bodies. -/
def pyOptStr (o : Option String) : String := o.getD "None"

/-- The worker's Telegram side effect: sent only when the envelope's
`context` carries a truthy `chat_id`. -/
def notifyChat (st : WorkerState) (ev : AgentEvent) (message : String) : WorkerState :=
  match dget ev.context "chat_id" with
  | some chatId =>
    if chatId.isEmpty then st
    else { st with notifications := st.notifications ++ [(chatId, message)] }
  | none => st

/-- Ghost observation of how one stage's iteration of
`process_queues_once` ended; the envelope value it carries is the final
value of the worker's local `event` variable. -/
inductive StepOutcome where
  | emptyQueue
  | noAgent
  | suspendedClarification (ev : AgentEvent)
  | suspendedApproval (ev : AgentEvent)
  | errorStop (ev : AgentEvent)
  | advanced (ev : AgentEvent) (next : Option String)
  | exnCaught (message : String)
deriving DecidableEq, Repr

/-- The body of the `for agent_name in AGENT_ORDER` loop of
`worker.process_queues_once`, for one stage. -/
def stepAgent (registry : String → Option AgentImpl) (now : String) (st : WorkerState)
    (agentName : String) : WorkerState × StepOutcome :=
  let queueName := "queue:" ++ agentName
  match st.queues queueName with
  | [] => (st, .emptyQueue)
  | ev :: rest =>
    let st1 : WorkerState := { st with queues := setQueue st.queues queueName rest }
    match registry agentName with
    | none => (st1, .noAgent)
    | some agent =>
      let eventId := ev.meta.eventId
      let originalPrompt := ev.task.originalPrompt
      let st2 := if agentName = "REQUIREMENT" then createTask st1 eventId originalPrompt else st1
      let st3 := addTaskEvent st2 eventId agentName "started" (some "Processing started")
      let st4 := addLog st3 agentName ("Processing " ++ eventId) "running"
      match agent.process ev with
      | .error emsg =>
        let st5 := addTaskEvent st4 eventId agentName "error" (some (emsg.take 200))
        let st6 := updateTaskStatus st5 eventId "FAILED" (some agentName)
        let st7 := addLog st6 agentName ("Error: " ++ emsg.take 100) "failed"
        (st7, .exnCaught emsg)
      | .ok ev2 =>
        if ev2.task.needsClarification then
          let st5 : WorkerState :=
            { st4 with waiting := setKey st4.waiting ("waiting:clarification:" ++ eventId) ev2 }
          let st6 := addLog st5 agentName ("Waiting for clarification: " ++ eventId) "pending"
          let st7 := notifyChat st6 ev2
            ("❓ <b>추가 정보가 필요합니다</b>\n\n" ++ pyOptStr ev2.task.clarificationQuestion)
          (st7, .suspendedClarification ev2)
        else if ev2.task.needsApproval then
          let st5 : WorkerState :=
            { st4 with waiting := setKey st4.waiting ("waiting:approval:" ++ eventId) ev2 }
          let st6 := addLog st5 agentName ("Waiting for approval: " ++ eventId) "pending"
          let st7 := notifyChat st6 ev2
            ("📋 <b>승인 요청</b>\n\n" ++ pyOptStr ev2.task.approvalMessage ++
              "\n\n/approve 또는 /reject 로 응답해주세요.")
          (st7, .suspendedApproval ev2)
        else if ev2.task.hasError then
          let st5 := addTaskEvent st4 eventId agentName "failed" ev2.task.errorMessage
          let st6 := updateTaskStatus st5 eventId "FAILED" (some agentName)
          let st7 := addLog st6 agentName ("Pipeline stopped due to error: " ++ eventId) "failed"
          let st8 := notifyChat st7 ev2
            ("❌ <b>파이프라인 중단</b>\n\n" ++ pyOptStr ev2.task.errorMessage)
          (st8, .errorStop ev2)
        else
          let nxt := agent.nextAgent
          let ev3 : AgentEvent :=
            { ev2 with task :=
                { ev2.task with
                    currentStage := nxt.getD "DONE"
                    status := if nxt.isNone then "COMPLETED" else ev2.task.status } }
          let st5 := addTaskEvent st4 eventId agentName "completed" (some "Processed successfully")
          let st6 := updateTaskStatus st5 eventId (if nxt.isSome then "RUNNING" else "COMPLETED")
            (some (nxt.getD "DONE"))
          let ev4 : AgentEvent :=
            { ev3 with history := ev3.history ++
                [{ stage := agentName, timestamp := now,
                   message := "Processed by " ++ agent.displayName, outputSummary := none }] }
          match nxt with
          | some n =>
            let st7 : WorkerState :=
              { st6 with queues := pushQueue st6.queues ("queue:" ++ n) ev4 }
            let st8 := addLog st7 agentName ("Completed " ++ eventId ++ " → " ++ n) "success"
            (st8, .advanced ev4 (some n))
          | none =>
            let st7 := addLog st6 "SYSTEM" ("Pipeline completed for " ++ eventId) "success"
            (st7, .advanced ev4 none)

/-- `AGENT_ORDER` of `backend/agents/__init__.py` (the list the worker
imports). -/
def AGENT_ORDER : List String :=
  ["REQUIREMENT", "PLAN", "UXUI", "ARCHITECT", "CODE",
   "REFACTORING", "TESTQA", "DOC", "RELEASE", "MONITORING", "EVALUATION"]

/-- `worker.process_queues_once`: one tick, visiting every stage in order and
collecting each stage's outcome. -/
def processQueuesOnce (registry : String → Option AgentImpl) (now : String) (st : WorkerState) :
    WorkerState × List (String × StepOutcome) :=
  AGENT_ORDER.foldl
    (fun acc name =>
      let r := stepAgent registry now acc.1 name
      (r.1, acc.2 ++ [(name, r.2)]))
    (st, [])

/-!
## The mock `RequirementAgent` of `backend/main.py`

`main.py` carries a deterministic mock pipeline: its `RequirementAgent`
requests clarification exactly when the prompt is shorter than 20
characters, and otherwise writes the refined-requirement text into
`data["requirement"]`.
-/

/-- Python `dict[k] = v` on the envelope's `data` bag. -/
def dataSet (d : List (String × Option String)) (k : String) (v : Option String) :
    List (String × Option String) :=
  dset d k v

/-- Output text of the mock agent when the prompt is long enough (the
f-string of `main.py`, lines 133-141). -/
def reqRefinedOutput (prompt : String) : String :=
  "[요구사항 정제 완료]\n원본: " ++ prompt ++ "\n정제된 요구사항:\n- 목적: " ++ prompt ++
    "에 대한 구현\n- 기능: 핵심 기능 구현 예정\n- 사용자: 일반 사용자\n- 제약사항: 없음\n"

/-- `RequirementAgent.process` of `backend/main.py` (the length-20
clarification heuristic). -/
def requirementProcessMain (ev : AgentEvent) : AgentEvent :=
  let prompt := ev.task.originalPrompt
  if prompt.length < 20 then
    let ev1 : AgentEvent :=
      { ev with task :=
          { ev.task with
              needsClarification := true
              clarificationQuestion := some "프로젝트의 구체적인 목표와 주요 기능을 알려주세요." } }
    let output := "[요구사항 분석 중] 추가 정보 필요: \x27" ++ prompt ++ "\x27"
    { ev1 with data := dataSet ev1.data "requirement" (some output) }
  else
    let ev1 : AgentEvent :=
      { ev with task :=
          { ev.task with needsClarification := false, clarificationQuestion := none } }
    { ev1 with data := dataSet ev1.data "requirement" (some (reqRefinedOutput prompt)) }

/-- The mock `RequirementAgent` of `backend/main.py` as a stage-handler
capability (it never raises). -/
def requirementAgentMain : AgentImpl :=
  { name := "REQUIREMENT"
    displayName := "요구사항 정제 에이전트"
    nextAgent := some "PLAN"
    process := fun ev => .ok (requirementProcessMain ev) }

/-!
## Resume-clarification — `event_clarify` of `backend/main.py`

Given an `event_id` and a human response: fetch the envelope from
`waiting:clarification:{event_id}` (404 when absent), append the response
to `original_prompt`, clear the clarification flag and question, append a
history entry, delete the waiting key, and push back to
`queue:REQUIREMENT` (the stage that suspends for clarification).
-/

/-- Result of the `/event/clarify` endpoint. -/
inductive ClarifyResult where
  | ok (eventId : String)
  | notFound (eventId : String)
deriving DecidableEq, Repr

/-- `event_clarify` of `backend/main.py`. -/
def eventClarify (st : WorkerState) (eventId response now : String) :
    WorkerState × ClarifyResult :=
  let waitingKey := "waiting:clarification:" ++ eventId
  match st.waiting waitingKey with
  | none => (st, .notFound eventId)
  | some ev =>
    let original := ev.task.originalPrompt
    let ev1 : AgentEvent :=
      { ev with task :=
          { ev.task with
              originalPrompt := original ++ "\n\n[사용자 추가 정보]: " ++ response
              needsClarification := false
              clarificationQuestion := none } }
    let ev2 : AgentEvent :=
      { ev1 with history := ev1.history ++
          [{ stage := "CLARIFICATION", timestamp := now,
             message := "User provided clarification: " ++ response.take 50 ++ "...",
             outputSummary := none }] }
    let st1 : WorkerState := { st with waiting := delKey st.waiting waitingKey }
    let st2 : WorkerState := { st1 with queues := pushQueue st1.queues "queue:REQUIREMENT" ev2 }
    let st3 := addLog st2 "CLARIFICATION" ("Clarification received for " ++ eventId) "success"
    (st3, .ok eventId)

/-!
## PR review feedback — `backend/core/pr_review_service.py`

`check_pr_reviews` turns the GitHub review list into `ReviewFeedback`
values (unknown review states default to `PENDING`, line-level comments are
attached to the most recent feedback), and `get_pending_feedback` picks the
most recent `CHANGES_REQUESTED` one.
-/

/-- `ReviewStatus` enum of `pr_review_service.py`. -/
inductive ReviewStatus where
  | APPROVED
  | CHANGES_REQUESTED
  | COMMENTED
  | PENDING
  | DISMISSED
deriving DecidableEq, Repr

/-- `ReviewStatus[state]` with the `KeyError → PENDING` fallback. -/
def parseReviewStatus (s : String) : ReviewStatus :=
  if s = "APPROVED" then .APPROVED
  else if s = "CHANGES_REQUESTED" then .CHANGES_REQUESTED
  else if s = "COMMENTED" then .COMMENTED
  else if s = "DISMISSED" then .DISMISSED
  else .PENDING

/-- One review as returned by the GitHub client (the fields
`check_pr_reviews` reads). -/
structure Review where
  state : String
  reviewer : String
  body : String
deriving DecidableEq, Repr

/-- One line-level comment datum attached to feedback. -/
structure CommentData where
  path : String
  line : Option Int
  body : String
deriving DecidableEq, Repr

/-- The `ReviewFeedback` dataclass (creation timestamp omitted — it never
influences control flow). -/
structure ReviewFeedback where
  prNumber : Nat
  reviewer : String
  status : ReviewStatus
  body : String
  comments : List CommentData
deriving DecidableEq, Repr

/-- The comment loop of `check_pr_reviews`: every comment is appended to the
last feedback (`feedback_list[-1]`), when one exists. -/
def attachToLast (fbs : List ReviewFeedback) (cs : List CommentData) : List ReviewFeedback :=
  match fbs with
  | [] => []
  | [f] => [{ f with comments := f.comments ++ cs }]
  | f :: rest => f :: attachToLast rest cs

/-- `PrReviewService.check_pr_reviews`, over the review and comment lists the
GitHub client returned. -/
def checkPrReviews (prNumber : Nat) (reviews : List Review) (comments : List CommentData) :
    List ReviewFeedback :=
  let feedbacks := reviews.map (fun r =>
    { prNumber := prNumber, reviewer := r.reviewer, status := parseReviewStatus r.state,
      body := r.body, comments := ([] : List CommentData) })
  attachToLast feedbacks comments

/-- `PrReviewService.get_pending_feedback`: the most recent
`CHANGES_REQUESTED` feedback, if any. -/
def getPendingFeedback (prNumber : Nat) (reviews : List Review) (comments : List CommentData) :
    Option ReviewFeedback :=
  (checkPrReviews prNumber reviews comments).reverse.find?
    (fun fb => fb.status == ReviewStatus.CHANGES_REQUESTED)

/-!
## PR wait poller — `PrWaitService.poll_once` of `backend/core/pr_wait_service.py`

The `_pending` dict is an insertion-ordered association list keyed by
`event_id`.  The GitHub client and the review query are external
collaborators; an `.error` result models a raised exception, caught by the
per-registration `try/except`.  Callback invocations are recorded in the
result so "fired exactly once" is observable; a callback that itself raises
is caught after being invoked, so recording the invocation is faithful.
-/

/-- The `PendingPR` dataclass.  `createdAt`/`lastChecked` are epoch seconds. -/
structure PendingPR where
  eventId : String
  prNumber : Nat
  repoOwner : String
  repoName : String
  agentName : String
  nextAgent : String
  eventData : AgentEvent
  createdAt : Nat
  lastChecked : Option Nat
  status : String
deriving DecidableEq, Repr

/-- External world and callback wiring seen by one `poll_once` call:
the review list per PR, the PR status per PR (`none` maps to `"unknown"`),
and whether the two callbacks are registered. -/
structure PollEnv where
  reviewsOf : Nat → String → String → Except String (List Review × List CommentData)
  statusOf : Nat → Except String (Option String)
  mergedCbSet : Bool
  reworkCbSet : Bool

/-- Per-registration outcome of the polling loop body. -/
inductive PollItemOutcome where
  | timedOut
  | rework (fb : ReviewFeedback)
  | merged
  | closed
  | stay
  | errStay (message : String)
deriving DecidableEq, Repr

/-- The loop body of `poll_once` for one registration: timeout check, then
review check, then merge/close check; any raise is caught (`errStay`).
Returns the (possibly mutated) registration object and the outcome. -/
def pollItem (env : PollEnv) (now timeoutSeconds : Nat) (p : PendingPR) :
    PendingPR × PollItemOutcome :=
  if now - p.createdAt > timeoutSeconds then
    ({ p with status := "timeout" }, .timedOut)
  else
    match env.reviewsOf p.prNumber p.repoOwner p.repoName with
    | .error e => (p, .errStay e)
    | .ok (reviews, comments) =>
      match getPendingFeedback p.prNumber reviews comments with
      | some fb => (p, .rework fb)
      | none =>
        match env.statusOf p.prNumber with
        | .error e => (p, .errStay e)
        | .ok statusOpt =>
          let p1 : PendingPR := { p with lastChecked := some now }
          let status := statusOpt.getD "unknown"
          if status = "merged" then ({ p1 with status := "merged" }, .merged)
          else if status = "closed" then ({ p1 with status := "closed" }, .closed)
          else (p1, .stay)

/-- Whether an outcome lands the registration in the `completed` list. -/
def isCompletedOutcome : PollItemOutcome → Bool
  | .timedOut => true
  | .merged => true
  | .closed => true
  | _ => false

/-- Result of one `poll_once` call: the surviving `_pending` dict, the
returned `completed` list, and the recorded callback invocations. -/
structure PollResult where
  pending : List (String × PendingPR)
  completed : List PendingPR
  reworkCalls : List (String × ReviewFeedback)
  mergedCalls : List String
deriving Repr

/-- The per-registration pass of `poll_once` over the `_pending` snapshot. -/
def pollResults (env : PollEnv) (now timeoutSeconds : Nat)
    (pending : List (String × PendingPR)) : List (String × (PendingPR × PollItemOutcome)) :=
  pending.map (fun e => (e.1, pollItem env now timeoutSeconds e.2))

/-- The `_pending` dict after the loop's in-place mutations (before the
removal of completed registrations). -/
def pollUpdated (env : PollEnv) (now timeoutSeconds : Nat)
    (pending : List (String × PendingPR)) : List (String × PendingPR) :=
  (pollResults env now timeoutSeconds pending).map (fun e => (e.1, e.2.1))

/-- The `completed` list collected during the iteration. -/
def pollCompleted (env : PollEnv) (now timeoutSeconds : Nat)
    (pending : List (String × PendingPR)) : List PendingPR :=
  (pollResults env now timeoutSeconds pending).filterMap (fun e =>
    if isCompletedOutcome e.2.2 then some e.2.1 else none)

/-- Rework-callback invocations fired during the iteration (only when the
callback is registered). -/
def pollReworkCalls (env : PollEnv) (now timeoutSeconds : Nat)
    (pending : List (String × PendingPR)) : List (String × ReviewFeedback) :=
  (pollResults env now timeoutSeconds pending).filterMap (fun e =>
    match e.2.2 with
    | .rework fb => if env.reworkCbSet then some (e.2.1.eventId, fb) else none
    | _ => none)

/-- Merged-callback invocations fired in the removal loop. -/
def pollMergedCalls (env : PollEnv) (now timeoutSeconds : Nat)
    (pending : List (String × PendingPR)) : List String :=
  (pollCompleted env now timeoutSeconds pending).filterMap (fun p =>
    if env.mergedCbSet && p.status == "merged" then some p.eventId else none)

/-- `PrWaitService.poll_once`: iterate a snapshot of `_pending`, mutate each
registration in place, collect `completed`, fire the rework callback during
iteration (registration kept), then remove completed registrations and fire
the merged callback for the merged ones. -/
def pollOnce (env : PollEnv) (now timeoutSeconds : Nat)
    (pending : List (String × PendingPR)) : PollResult :=
  { pending := (pollCompleted env now timeoutSeconds pending).foldl
      (fun acc p => dremove acc p.eventId) (pollUpdated env now timeoutSeconds pending)
    completed := pollCompleted env now timeoutSeconds pending
    reworkCalls := pollReworkCalls env now timeoutSeconds pending
    mergedCalls := pollMergedCalls env now timeoutSeconds pending }

/-- `PrWaitService.register_pr_wait`: dict assignment keyed by `event_id`. -/
def registerPrWait (pending : List (String × PendingPR)) (p : PendingPR) :
    List (String × PendingPR) :=
  dset pending p.eventId p

/-!
## Queue store with schema validation — `backend/core/redis_client.py`

`push_event`/`pop_event` serialize envelopes through the pydantic
`AgentEvent` schema.  The payload representation and the validator are
parameters: `validate` models `AgentEvent.from_dict` followed by
`to_dict` (normalization), returning `.error` for a `ValidationError`.
-/

/-- `redis_client.push_event`: validate, push the normalized payload on
success; on a `ValidationError`, log and push the raw payload anyway
(backward compatibility), still reporting success. -/
def pushEvent {α : Type} (validate : α → Except String α) (qs : String → List α)
    (queueName : String) (event : α) : (String → List α) × Bool × List LogRec :=
  match validate event with
  | .ok normalized =>
    (pushQueue qs queueName normalized, true,
      [{ agent := "SYSTEM", message := "Pushed event to " ++ queueName, status := "info" }])
  | .error e =>
    (pushQueue qs queueName event, true,
      [{ agent := "SYSTEM", message := "Schema validation failed: " ++ e.take 100,
         status := "failed" }])

/-- `redis_client.pop_event`: LPOP, then optionally validate; a
`ValidationError` returns the raw stored item instead of dropping it. -/
def popEvent {α : Type} (validate : α → Except String α) (qs : String → List α)
    (queueName : String) (validateFlag : Bool) : (String → List α) × Option α :=
  match qs queueName with
  | [] => (qs, none)
  | item :: rest =>
    let qs1 := setQueue qs queueName rest
    if validateFlag then
      match validate item with
      | .ok v => (qs1, some v)
      | .error _ => (qs1, some item)
    else
      (qs1, some item)

/-!
## Witness fixtures and proof-support definitions
-/

/-- The `DESIGN` state definition of `PRODUCT_DEV_V1`, as the registry
resolves it. -/
def designState : StateDefinition :=
  (dget PRODUCT_DEV_V1.states "DESIGN").getD
    { onEnter := [], transitions := [], requiresApprovals := [] }

/-- Witness WorkItem sitting in the `DESIGN` state. -/
def wiDesign : WorkItem :=
  { id := "wi1", title := "demo", currentState := "DESIGN",
    workflowName := "product_dev_v1", meta := [], approvalFlags := [],
    createdAt := "2024-01-01T00:00:00", updatedAt := "2024-01-01T00:00:00", history := [] }

/-- Witness orchestrator store holding only `wiDesign`. -/
def orchSt0 : OrchState :=
  { items := fun k => if k = "workitem:wi1" then some wiDesign else none
    queues := fun _ => [] }

/-- Witness event whose name `QA_PASSED` is not a `DESIGN` transition. -/
def evUnknown : WorkflowEvent :=
  { name := "QA_PASSED", workItemId := "wi1", payload := [],
    createdAt := "2024-01-02T00:00:00", source := "human" }

/-- Witness WorkItem in `DESIGN` carrying one recorded approval flag. -/
def wiRej : WorkItem :=
  { wiDesign with approvalFlags := [("UX_APPROVED", true)] }

/-- Witness store holding `wiRej`. -/
def orchStRej : OrchState :=
  { items := fun k => if k = "workitem:wi1" then some wiRej else none
    queues := fun _ => [] }

/-- Witness event: the `DESIGN_REJECTED` ordinary transition out of the
approval-gated `DESIGN` state. -/
def evReject : WorkflowEvent :=
  { name := "DESIGN_REJECTED", workItemId := "wi1", payload := [],
    createdAt := "2024-01-03T00:00:00", source := "human" }

/-- A `UX_APPROVED` approval event, as `submit_approval` builds it. -/
def evUXApproved (wid now : String) : WorkflowEvent :=
  { name := "UX_APPROVED", workItemId := wid, payload := [], createdAt := now,
    source := "human" }

/-- An `ARCH_APPROVED` approval event. -/
def evArchApproved (wid now : String) : WorkflowEvent :=
  { name := "ARCH_APPROVED", workItemId := wid, payload := [], createdAt := now,
    source := "human" }

/-- The WorkItem `_handle_approval_event` computes after recording
`UX_APPROVED`: flag set, history entry appended. -/
def wiUX (wi : WorkItem) (now1 : String) : WorkItem :=
  WorkItem.addHistory { wi with approvalFlags := dset wi.approvalFlags "UX_APPROVED" true }
    wi.currentState ("Approval received: " ++ "UX_APPROVED") now1

/-- The WorkItem after the subsequent `ARCH_APPROVED` flag is recorded. -/
def wiBoth (wi : WorkItem) (now1 now2 : String) : WorkItem :=
  WorkItem.addHistory
    { wiUX wi now1 with
        approvalFlags := dset (wiUX wi now1).approvalFlags "ARCH_APPROVED" true }
    (wiUX wi now1).currentState ("Approval received: " ++ "ARCH_APPROVED") now2

/-- The WorkItem persisted by the combined `UX_ARCH_DONE` transition:
state `CODING`, approval flags cleared, final history entry appended. -/
def wiDone (wi : WorkItem) (now1 now2 : String) : WorkItem :=
  WorkItem.addHistory
    { wiBoth wi now1 now2 with currentState := "CODING", approvalFlags := [] }
    "CODING"
    ("All approvals received, transitioned from " ++ (wiBoth wi now1 now2).currentState)
    now2

/-- Witness envelope: a freshly ingested task with a short prompt. -/
def evtShort : AgentEvent :=
  { meta := { eventId := "evt1", timestamp := "ts0", source := "api_ingress", version := "1.0" }
    context := [("chat_id", "99")]
    task := { title := "T", taskType := "CODE_ORCHESTRATION", status := "PENDING",
              currentStage := "REQUIREMENT", originalPrompt := "short",
              needsClarification := false, clarificationQuestion := none,
              needsApproval := false, approvalMessage := none,
              hasError := false, errorMessage := none, gitContext := none }
    data := [("requirement", none)]
    history := [] }

/-- Witness envelope with a prompt long enough to skip clarification. -/
def evtLong : AgentEvent :=
  { evtShort with
      meta := { eventId := "evt2", timestamp := "ts0", source := "api_ingress", version := "1.0" }
      task := { evtShort.task with originalPrompt := "Build a todo app for team task tracking" } }

/-- Witness worker state: one short-prompt envelope queued at REQUIREMENT. -/
def wStShort : WorkerState :=
  { queues := fun k => if k = "queue:REQUIREMENT" then [evtShort] else []
    waiting := fun _ => none, tasks := fun _ => none
    taskEvents := [], logs := [], notifications := [] }

/-- Witness worker state: one long-prompt envelope queued at REQUIREMENT. -/
def wStLong : WorkerState :=
  { queues := fun k => if k = "queue:REQUIREMENT" then [evtLong] else []
    waiting := fun _ => none, tasks := fun _ => none
    taskEvents := [], logs := [], notifications := [] }

/-- Witness registry binding only REQUIREMENT to the mock agent. -/
def regMain : String → Option AgentImpl :=
  fun n => if n = "REQUIREMENT" then some requirementAgentMain else none

/-- Witness handler that reports an error on every envelope. -/
def errAgent : AgentImpl :=
  { name := "REQUIREMENT", displayName := "실패 에이전트", nextAgent := some "PLAN"
    process := fun e =>
      Except.ok { e with task := { e.task with hasError := true, errorMessage := some "boom" } } }

/-- The envelope `errAgent` hands back for `evtShort`. -/
def errEnv2 : AgentEvent :=
  { evtShort with task := { evtShort.task with hasError := true, errorMessage := some "boom" } }

/-- Witness registry binding REQUIREMENT to the failing handler. -/
def regErr : String → Option AgentImpl :=
  fun n => if n = "REQUIREMENT" then some errAgent else none

/-- Witness worker state for the error branch: the task row already exists. -/
def wStErr : WorkerState :=
  { queues := fun k => if k = "queue:REQUIREMENT" then [evtShort] else []
    waiting := fun _ => none
    tasks := fun k =>
      if k = "evt1" then
        some { originalPrompt := "short", status := "RUNNING", currentStage := "REQUIREMENT" }
      else none
    taskEvents := [], logs := [], notifications := [] }

/-- Witness handler with no declared next stage. -/
def doneAgent : AgentImpl :=
  { name := "EVALUATION", displayName := "평가 에이전트", nextAgent := none
    process := fun e => Except.ok e }

/-- Witness registry binding only EVALUATION to `doneAgent`. -/
def regDone : String → Option AgentImpl :=
  fun n => if n = "EVALUATION" then some doneAgent else none

/-- Witness worker state: one envelope queued at EVALUATION. -/
def wStEval : WorkerState :=
  { queues := fun k => if k = "queue:EVALUATION" then [evtLong] else []
    waiting := fun _ => none, tasks := fun _ => none
    taskEvents := [], logs := [], notifications := [] }

/-- The envelope `/event/clarify` re-enqueues: response appended to the
original prompt, clarification flag and question cleared, history entry
appended. -/
def clarifiedEnvelope (ev : AgentEvent) (response now : String) : AgentEvent :=
  { ev with
      task := { ev.task with
          originalPrompt := ev.task.originalPrompt ++ "\n\n[사용자 추가 정보]: " ++ response
          needsClarification := false
          clarificationQuestion := none }
      history := ev.history ++
        [{ stage := "CLARIFICATION", timestamp := now,
           message := "User provided clarification: " ++ response.take 50 ++ "..."
           outputSummary := none }] }

/-- Witness worker state holding one suspended clarification envelope. -/
def wStWait : WorkerState :=
  { queues := fun _ => []
    waiting := fun k =>
      if k = "waiting:clarification:evt1" then some (requirementProcessMain evtShort)
      else none
    tasks := fun _ => none
    taskEvents := [], logs := [], notifications := [] }

/-- Witness validator that rejects every payload. -/
def rejectAll : String → Except String String := fun _ => Except.error "malformed"

/-- Witness queue map with no items (payloads are plain strings). -/
def strQ0 : String → List String := fun _ => []

/-- Witness queue map holding one raw (schema-invalid) item. -/
def strQ1 : String → List String :=
  fun k => if k = "queue:REQUIREMENT" then ["rawitem"] else []

/-- Witness PendingPR registrations for the four poll outcomes. -/
def ppA : PendingPR :=
  { eventId := "ev-a", prNumber := 1, repoOwner := "o", repoName := "r",
    agentName := "CODE", nextAgent := "TESTQA", eventData := evtShort,
    createdAt := 0, lastChecked := none, status := "pending" }

def ppB : PendingPR := { ppA with eventId := "ev-b", prNumber := 2 }

def ppC : PendingPR := { ppA with eventId := "ev-c", prNumber := 3 }

def ppD : PendingPR := { ppA with eventId := "ev-d", prNumber := 4 }

/-- Witness environment: PR open, no reviews, both callbacks registered. -/
def envOpen : PollEnv :=
  { reviewsOf := fun _ _ _ => Except.ok ([], [])
    statusOf := fun _ => Except.ok (some "open")
    mergedCbSet := true, reworkCbSet := true }

/-- Witness environment: PR merged. -/
def envMerged : PollEnv := { envOpen with statusOf := fun _ => Except.ok (some "merged") }

/-- A CHANGES_REQUESTED review. -/
def reviewCR : Review := { state := "CHANGES_REQUESTED", reviewer := "alice", body := "please fix" }

/-- Witness environment: a pending CHANGES_REQUESTED review. -/
def envCR : PollEnv := { envOpen with reviewsOf := fun _ _ _ => Except.ok ([reviewCR], []) }

/-- The feedback `get_pending_feedback` derives from `reviewCR` on PR 4. -/
def fbCR : ReviewFeedback :=
  { prNumber := 4, reviewer := "alice", status := ReviewStatus.CHANGES_REQUESTED,
    body := "please fix", comments := [] }

/-- Witness handler that raises (returns `Except.error`) on every envelope. -/
def exnAgent : AgentImpl :=
  { name := "REQUIREMENT", displayName := "예외 에이전트", nextAgent := some "PLAN"
    process := fun _ => Except.error "boom" }

/-- Witness registry: REQUIREMENT raises, EVALUATION succeeds, others absent. -/
def regC7 : String → Option AgentImpl :=
  fun n =>
    if n = "REQUIREMENT" then some exnAgent
    else if n = "EVALUATION" then some doneAgent
    else none

/-- Witness worker state: envelopes queued at REQUIREMENT and EVALUATION. -/
def wStC7 : WorkerState :=
  { queues := fun k =>
      if k = "queue:REQUIREMENT" then [evtShort]
      else if k = "queue:EVALUATION" then [evtLong]
      else []
    waiting := fun _ => none, tasks := fun _ => none
    taskEvents := [], logs := [], notifications := [] }

/-- Witness environment: the status query raises for PR 1, PR 2 is merged. -/
def envMix : PollEnv :=
  { reviewsOf := fun _ _ _ => Except.ok ([], [])
    statusOf := fun n => if n = 1 then Except.error "api down" else Except.ok (some "merged")
    mergedCbSet := true, reworkCbSet := true }

/-!
## Frame lemmas for the orchestrator
-/

theorem enqueueAgentJob_items (st : OrchState) (a w : String) (ps : List (String × String))
    (now : String) : (enqueueAgentJob st a w ps now).items = st.items := rfl

theorem executeActions_items (wi : WorkItem) (now : String) :
    ∀ (actions : List Action) (st : OrchState),
      (executeActions st wi actions now).items = st.items
  | [], _ => rfl
  | a :: rest, st => by
    have e : executeActions st wi (a :: rest) now =
        executeActions
          (if a.enqueueAgent ≠ "" then enqueueAgentJob st a.enqueueAgent wi.id a.params now
           else st) wi rest now := rfl
    rw [e, executeActions_items wi now rest]
    split <;> rfl

theorem execOnEnter_items (st : OrchState) (wf : WorkflowDefinition) (wi : WorkItem)
    (now : String) : (execOnEnter st wf wi now).items = st.items := by
  unfold execOnEnter
  rcases dget wf.states wi.currentState with _ | nsd
  · rfl
  · exact executeActions_items wi now nsd.onEnter st

theorem loadWorkItem_execOnEnter (st : OrchState) (wf : WorkflowDefinition) (wi : WorkItem)
    (now wid : String) :
    loadWorkItem (execOnEnter st wf wi now) wid = loadWorkItem st wid := by
  unfold loadWorkItem
  rw [execOnEnter_items]

theorem loadWorkItem_executeActions (st : OrchState) (wi : WorkItem) (acts : List Action)
    (now wid : String) :
    loadWorkItem (executeActions st wi acts now) wid = loadWorkItem st wid := by
  unfold loadWorkItem
  rw [executeActions_items]

theorem loadWorkItem_save_self (st : OrchState) (wi : WorkItem) :
    loadWorkItem (saveWorkItem st wi) wi.id = some wi := by
  simp [loadWorkItem, saveWorkItem, setKey]

/-!
## C6 — unknown events are rejected and change nothing
-/

/-- C6: for every WorkItem, `handle_event` with an event name that is neither
in the current state's transition map nor among its required approvals
returns failure with the invalid-transition message and returns the store
untouched — the persisted WorkItem (and its `approval_flags`) is
byte-for-byte the one that was loaded. -/
theorem handleEvent_unknown_event_rejected
    (st : OrchState) (ev : WorkflowEvent) (now : String) (wi : WorkItem)
    (wf : WorkflowDefinition) (sd : StateDefinition)
    (hload : loadWorkItem st ev.workItemId = some wi)
    (hwf : dget WORKFLOW_REGISTRY wi.workflowName = some wf)
    (hsd : dget wf.states wi.currentState = some sd)
    (hna : sd.requiresApprovals.contains ev.name = false)
    (hnt : dget sd.transitions ev.name = none) :
    handleEvent st ev now =
      (st, false,
        "Invalid transition: state=" ++ wi.currentState ++ ", event=" ++ ev.name,
        OrchOutcome.invalidTransition) := by
  have hna2 : ¬ ev.name ∈ sd.requiresApprovals := by
    simpa using hna
  have happ : (if sd.requiresApprovals.isEmpty then none
      else handleApprovalEvent st wf sd wi ev now) = (none : Option OrchResult) := by
    by_cases he : sd.requiresApprovals.isEmpty
    · simp [he]
    · simp [he, handleApprovalEvent, hna2]
  unfold handleEvent
  simp only [hload, hwf, hsd, happ, hnt]


theorem handleEvent_unknown_event_rejected_witness :
    loadWorkItem orchSt0 "wi1" = some wiDesign ∧
    dget WORKFLOW_REGISTRY wiDesign.workflowName = some PRODUCT_DEV_V1 ∧
    dget PRODUCT_DEV_V1.states wiDesign.currentState = some designState ∧
    designState.requiresApprovals.contains evUnknown.name = false ∧
    dget designState.transitions evUnknown.name = none ∧
    handleEvent orchSt0 evUnknown "2024-01-02T00:00:00" =
      (orchSt0, false, "Invalid transition: state=DESIGN, event=QA_PASSED",
        OrchOutcome.invalidTransition) :=
  ⟨rfl, rfl, rfl, rfl, rfl,
    handleEvent_unknown_event_rejected orchSt0 evUnknown "2024-01-02T00:00:00"
      wiDesign PRODUCT_DEV_V1 designState rfl rfl rfl rfl rfl⟩

/-!
## Branch-equation lemmas for `handleEvent`
-/

theorem loadWorkItem_save_of_id (st : OrchState) (wi : WorkItem) (wid : String)
    (h : wi.id = wid) : loadWorkItem (saveWorkItem st wi) wid = some wi := by
  subst h
  exact loadWorkItem_save_self st wi

theorem handleEvent_eq_of_approvalSome
    (st : OrchState) (ev : WorkflowEvent) (now : String) (wi : WorkItem)
    (wf : WorkflowDefinition) (sd : StateDefinition) (r : OrchResult)
    (hload : loadWorkItem st ev.workItemId = some wi)
    (hwf : dget WORKFLOW_REGISTRY wi.workflowName = some wf)
    (hsd : dget wf.states wi.currentState = some sd)
    (he : sd.requiresApprovals.isEmpty = false)
    (ha : handleApprovalEvent st wf sd wi ev now = some r) :
    handleEvent st ev now = r := by
  unfold handleEvent
  simp only [hload, hwf, hsd, he, Bool.false_eq_true, if_false, ha]

theorem handleEvent_eq_of_normal
    (st : OrchState) (ev : WorkflowEvent) (now : String) (wi : WorkItem)
    (wf : WorkflowDefinition) (sd : StateDefinition) (t : WfTransition)
    (hload : loadWorkItem st ev.workItemId = some wi)
    (hwf : dget WORKFLOW_REGISTRY wi.workflowName = some wf)
    (hsd : dget wf.states wi.currentState = some sd)
    (ha : (if sd.requiresApprovals.isEmpty then none
           else handleApprovalEvent st wf sd wi ev now) = (none : Option OrchResult))
    (ht : dget sd.transitions ev.name = some t) :
    handleEvent st ev now = normalTransitionResult st wf sd wi ev t now := by
  unfold handleEvent
  simp only [hload, hwf, hsd, ha, ht]

theorem handleApprovalEvent_ne_none_of_contains
    (st : OrchState) (wf : WorkflowDefinition) (sd : StateDefinition) (wi : WorkItem)
    (ev : WorkflowEvent) (now : String)
    (hc : sd.requiresApprovals.contains ev.name = true) :
    handleApprovalEvent st wf sd wi ev now ≠ none := by
  unfold handleApprovalEvent
  rw [if_pos hc]
  dsimp only
  split
  · split <;> simp
  · simp

/-!
## C10 — leaving an approval-gated state always clears the flags
-/

theorem combinedApprovalResult_cleared
    (st : OrchState) (wf : WorkflowDefinition) (wi2 : WorkItem) (t : WfTransition)
    (now : String) :
    ∃ wi4, loadWorkItem (combinedApprovalResult st wf wi2 t now).1 wi2.id = some wi4 ∧
      wi4.approvalFlags = [] := by
  unfold combinedApprovalResult
  dsimp only
  refine ⟨WorkItem.addHistory { wi2 with currentState := t.toState, approvalFlags := [] }
    t.toState ("All approvals received, transitioned from " ++ wi2.currentState) now, ?_, rfl⟩
  rw [loadWorkItem_execOnEnter]
  exact loadWorkItem_save_of_id _ _ _ rfl

theorem handleApprovalEvent_combined_cleared
    (st : OrchState) (wf : WorkflowDefinition) (sd : StateDefinition) (wi : WorkItem)
    (ev : WorkflowEvent) (now : String) (r : OrchResult) (p q : String)
    (h : handleApprovalEvent st wf sd wi ev now = some r)
    (hout : r.2.2.2 = OrchOutcome.combinedTransition p q) :
    ∃ wi2, loadWorkItem r.1 wi.id = some wi2 ∧ wi2.approvalFlags = [] := by
  unfold handleApprovalEvent at h
  by_cases hc : sd.requiresApprovals.contains ev.name = true
  · rw [if_pos hc] at h
    dsimp only at h
    split at h
    · split at h
      · injection h with h2
        subst h2
        exact combinedApprovalResult_cleared st wf _ _ now
      · injection h with h2
        subst h2
        simp [approvalWaitingResult] at hout
    · injection h with h2
      subst h2
      simp [approvalWaitingResult] at hout
  · rw [if_neg hc] at h
    exact Option.noConfusion h

theorem normalTransitionResult_cleared
    (st : OrchState) (wf : WorkflowDefinition) (sd : StateDefinition) (wi : WorkItem)
    (ev : WorkflowEvent) (t : WfTransition) (now : String)
    (he : sd.requiresApprovals.isEmpty = false) :
    ∃ wi2, loadWorkItem (normalTransitionResult st wf sd wi ev t now).1 wi.id = some wi2 ∧
      wi2.approvalFlags = [] := by
  unfold normalTransitionResult
  dsimp only
  simp only [he, Bool.false_eq_true, if_false]
  refine ⟨{ WorkItem.addHistory { wi with currentState := t.toState } t.toState
      ("Transitioned from " ++ wi.currentState ++ " via " ++ ev.name) now with
      approvalFlags := [] }, ?_, rfl⟩
  rw [loadWorkItem_execOnEnter, loadWorkItem_executeActions]
  exact loadWorkItem_save_of_id _ _ _ rfl

/-- C10: every successful `handle_event` transition out of a state that
declares `requires_approvals` — via the synthesized combined approval event
or via an ordinary transition of that state such as a rejection — persists
the WorkItem with `approval_flags` reset to the empty map, so a WorkItem
outside an approval-gated state never carries stale approval flags. -/
theorem approval_flags_cleared_on_transition
    (st : OrchState) (ev : WorkflowEvent) (now : String) (wi : WorkItem)
    (wf : WorkflowDefinition) (sd : StateDefinition) (p q : String)
    (hload : loadWorkItem st ev.workItemId = some wi)
    (hid : wi.id = ev.workItemId)
    (hwf : dget WORKFLOW_REGISTRY wi.workflowName = some wf)
    (hsd : dget wf.states wi.currentState = some sd)
    (hreq : sd.requiresApprovals ≠ [])
    (houtcome : (handleEvent st ev now).2.2.2 = OrchOutcome.transitioned p q ∨
                (handleEvent st ev now).2.2.2 = OrchOutcome.combinedTransition p q) :
    ∃ wi2, loadWorkItem (handleEvent st ev now).1 ev.workItemId = some wi2 ∧
      wi2.approvalFlags = [] := by
  have he : sd.requiresApprovals.isEmpty = false := by
    cases hl : sd.requiresApprovals with
    | nil => exact absurd hl hreq
    | cons a rest => rfl
  rcases ha : handleApprovalEvent st wf sd wi ev now with _ | r
  · have han : (if sd.requiresApprovals.isEmpty then none
        else handleApprovalEvent st wf sd wi ev now) = (none : Option OrchResult) := by
      rw [ha]
      split <;> rfl
    rcases ht : dget sd.transitions ev.name with _ | t
    · exfalso
      have hE : handleEvent st ev now =
          (st, false,
            "Invalid transition: state=" ++ wi.currentState ++ ", event=" ++ ev.name,
            OrchOutcome.invalidTransition) := by
        unfold handleEvent
        simp only [hload, hwf, hsd, han, ht]
      rw [hE] at houtcome
      rcases houtcome with h | h <;> simp at h
    · have hE := handleEvent_eq_of_normal st ev now wi wf sd t hload hwf hsd han ht
      rw [hE]
      rw [← hid]
      exact normalTransitionResult_cleared st wf sd wi ev t now he
  · have hE := handleEvent_eq_of_approvalSome st ev now wi wf sd r hload hwf hsd he ha
    rw [hE] at houtcome ⊢
    have hcomb : r.2.2.2 = OrchOutcome.combinedTransition p q := by
      rcases houtcome with h | h
      · exfalso
        unfold handleApprovalEvent at ha
        by_cases hc : sd.requiresApprovals.contains ev.name = true
        · rw [if_pos hc] at ha
          dsimp only at ha
          split at ha
          · split at ha
            · injection ha with h2
              rw [← h2] at h
              simp [combinedApprovalResult] at h
            · injection ha with h2
              rw [← h2] at h
              simp [approvalWaitingResult] at h
          · injection ha with h2
            rw [← h2] at h
            simp [approvalWaitingResult] at h
        · rw [if_neg hc] at ha
          exact Option.noConfusion ha
      · exact h
    rw [← hid]
    exact handleApprovalEvent_combined_cleared st wf sd wi ev now r p q ha hcomb


theorem approval_flags_cleared_on_transition_witness :
    (loadWorkItem orchStRej "wi1" = some wiRej ∧
     wiRej.id = "wi1" ∧
     dget WORKFLOW_REGISTRY wiRej.workflowName = some PRODUCT_DEV_V1 ∧
     dget PRODUCT_DEV_V1.states wiRej.currentState = some designState ∧
     designState.requiresApprovals ≠ [] ∧
     (handleEvent orchStRej evReject "2024-01-03T00:00:00").2.2.2 =
       OrchOutcome.transitioned "DESIGN" "REQUIREMENTS") ∧
    (∃ wi2, loadWorkItem (handleEvent orchStRej evReject "2024-01-03T00:00:00").1 "wi1" =
        some wi2 ∧ wi2.approvalFlags = []) :=
  ⟨⟨rfl, rfl, rfl, rfl, by decide, rfl⟩,
   approval_flags_cleared_on_transition orchStRej evReject "2024-01-03T00:00:00" wiRej
     PRODUCT_DEV_V1 designState "DESIGN" "REQUIREMENTS" rfl rfl rfl rfl (by decide)
     (Or.inl rfl)⟩

/-!
## C1 — multi-approval gating on the DESIGN state
-/

theorem approvalWaitingResult_load (st : OrchState) (sd : StateDefinition) (wi2 : WorkItem)
    (evName : String) :
    loadWorkItem (approvalWaitingResult st sd wi2 evName).1 wi2.id = some wi2 := by
  unfold approvalWaitingResult
  dsimp only
  exact loadWorkItem_save_of_id _ _ _ rfl

theorem combinedApprovalResult_load (st : OrchState) (wf : WorkflowDefinition)
    (wi2 : WorkItem) (t : WfTransition) (now : String) :
    loadWorkItem (combinedApprovalResult st wf wi2 t now).1 wi2.id =
      some (WorkItem.addHistory { wi2 with currentState := t.toState, approvalFlags := [] }
        t.toState ("All approvals received, transitioned from " ++ wi2.currentState) now) := by
  unfold combinedApprovalResult
  dsimp only
  rw [loadWorkItem_execOnEnter]
  exact loadWorkItem_save_of_id _ _ _ rfl

/-- C1: a WorkItem of the registered workflow whose current state is the
approval-gated `DESIGN` state (`requires_approvals = [UX_APPROVED,
ARCH_APPROVED]`) with empty `approval_flags`: submitting `UX_APPROVED` alone
succeeds, keeps `current_state` unchanged and records
`approval_flags = {UX_APPROVED: true}`; submitting `ARCH_APPROVED` next
finds the combined event `UX_ARCH_DONE` in the static table, transitions to
that event's target state `CODING`, and clears `approval_flags`. -/
theorem multi_approval_design_two_step
    (st : OrchState) (wid now1 now2 : String) (wi : WorkItem)
    (hload : loadWorkItem st wid = some wi)
    (hid : wi.id = wid)
    (hwf : wi.workflowName = "product_dev_v1")
    (hstate : wi.currentState = "DESIGN")
    (hflags : wi.approvalFlags = []) :
    (handleEvent st (evUXApproved wid now1) now1).2.1 = true ∧
    loadWorkItem (handleEvent st (evUXApproved wid now1) now1).1 wid =
      some (wiUX wi now1) ∧
    (wiUX wi now1).currentState = wi.currentState ∧
    (wiUX wi now1).approvalFlags = [("UX_APPROVED", true)] ∧
    getCombinedApprovalEvent designState = some "UX_ARCH_DONE" ∧
    dget designState.transitions "UX_ARCH_DONE" = some { toState := "CODING", actions := [] } ∧
    (handleEvent (handleEvent st (evUXApproved wid now1) now1).1
        (evArchApproved wid now2) now2).2.1 = true ∧
    (handleEvent (handleEvent st (evUXApproved wid now1) now1).1
        (evArchApproved wid now2) now2).2.2.2 =
      OrchOutcome.combinedTransition "DESIGN" "CODING" ∧
    loadWorkItem
        (handleEvent (handleEvent st (evUXApproved wid now1) now1).1
          (evArchApproved wid now2) now2).1 wid =
      some (wiDone wi now1 now2) ∧
    (wiDone wi now1 now2).currentState = "CODING" ∧
    (wiDone wi now1 now2).approvalFlags = [] := by
  obtain ⟨i0, t0, c0, n0, m0, f0, ca0, ua0, h0⟩ := wi
  dsimp only at hid hwf hstate hflags
  subst hid hwf hstate hflags
  have ha1 : handleApprovalEvent st PRODUCT_DEV_V1 designState
      ⟨i0, t0, "DESIGN", "product_dev_v1", m0, [], ca0, ua0, h0⟩
      (evUXApproved i0 now1) now1 =
      some (approvalWaitingResult st designState
        (wiUX ⟨i0, t0, "DESIGN", "product_dev_v1", m0, [], ca0, ua0, h0⟩ now1)
        "UX_APPROVED") := rfl
  have hE1 := handleEvent_eq_of_approvalSome st (evUXApproved i0 now1) now1
    ⟨i0, t0, "DESIGN", "product_dev_v1", m0, [], ca0, ua0, h0⟩
    PRODUCT_DEV_V1 designState _ hload rfl rfl rfl ha1
  have hL1 : loadWorkItem (handleEvent st (evUXApproved i0 now1) now1).1 i0 =
      some (wiUX ⟨i0, t0, "DESIGN", "product_dev_v1", m0, [], ca0, ua0, h0⟩ now1) := by
    rw [hE1]
    exact approvalWaitingResult_load st designState _ "UX_APPROVED"
  have ha2 : handleApprovalEvent (handleEvent st (evUXApproved i0 now1) now1).1
      PRODUCT_DEV_V1 designState
      (wiUX ⟨i0, t0, "DESIGN", "product_dev_v1", m0, [], ca0, ua0, h0⟩ now1)
      (evArchApproved i0 now2) now2 =
      some (combinedApprovalResult (handleEvent st (evUXApproved i0 now1) now1).1
        PRODUCT_DEV_V1
        (wiBoth ⟨i0, t0, "DESIGN", "product_dev_v1", m0, [], ca0, ua0, h0⟩ now1 now2)
        { toState := "CODING", actions := [] } now2) := rfl
  have hE2 := handleEvent_eq_of_approvalSome (handleEvent st (evUXApproved i0 now1) now1).1
    (evArchApproved i0 now2) now2
    (wiUX ⟨i0, t0, "DESIGN", "product_dev_v1", m0, [], ca0, ua0, h0⟩ now1)
    PRODUCT_DEV_V1 designState _ hL1 rfl rfl rfl ha2
  refine ⟨?_, hL1, rfl, rfl, rfl, rfl, ?_, ?_, ?_, rfl, rfl⟩
  · rw [hE1]
    rfl
  · rw [hE2]
    rfl
  · rw [hE2]
    rfl
  · rw [hE2]
    exact combinedApprovalResult_load _ PRODUCT_DEV_V1 _ _ now2

theorem multi_approval_design_two_step_witness :
    (loadWorkItem orchSt0 "wi1" = some wiDesign ∧
     wiDesign.id = "wi1" ∧
     wiDesign.workflowName = "product_dev_v1" ∧
     wiDesign.currentState = "DESIGN" ∧
     wiDesign.approvalFlags = []) ∧
    ((handleEvent orchSt0 (evUXApproved "wi1" "t1") "t1").2.1 = true ∧
     loadWorkItem (handleEvent orchSt0 (evUXApproved "wi1" "t1") "t1").1 "wi1" =
       some (wiUX wiDesign "t1") ∧
     (wiUX wiDesign "t1").currentState = wiDesign.currentState ∧
     (wiUX wiDesign "t1").approvalFlags = [("UX_APPROVED", true)] ∧
     getCombinedApprovalEvent designState = some "UX_ARCH_DONE" ∧
     dget designState.transitions "UX_ARCH_DONE" =
       some { toState := "CODING", actions := [] } ∧
     (handleEvent (handleEvent orchSt0 (evUXApproved "wi1" "t1") "t1").1
         (evArchApproved "wi1" "t2") "t2").2.1 = true ∧
     (handleEvent (handleEvent orchSt0 (evUXApproved "wi1" "t1") "t1").1
         (evArchApproved "wi1" "t2") "t2").2.2.2 =
       OrchOutcome.combinedTransition "DESIGN" "CODING" ∧
     loadWorkItem
         (handleEvent (handleEvent orchSt0 (evUXApproved "wi1" "t1") "t1").1
           (evArchApproved "wi1" "t2") "t2").1 "wi1" =
       some (wiDone wiDesign "t1" "t2") ∧
     (wiDone wiDesign "t1" "t2").currentState = "CODING" ∧
     (wiDone wiDesign "t1" "t2").approvalFlags = []) :=
  ⟨⟨rfl, rfl, rfl, rfl, rfl⟩,
   multi_approval_design_two_step orchSt0 "wi1" "t1" "t2" wiDesign rfl rfl rfl rfl rfl⟩

/-!
## Frame lemmas for the worker state
-/

theorem createTask_queues (st : WorkerState) (a b : String) :
    (createTask st a b).queues = st.queues := by
  unfold createTask
  rcases st.tasks a <;> rfl

theorem createTask_waiting (st : WorkerState) (a b : String) :
    (createTask st a b).waiting = st.waiting := by
  unfold createTask
  rcases st.tasks a <;> rfl

theorem createTask_taskEvents (st : WorkerState) (a b : String) :
    (createTask st a b).taskEvents = st.taskEvents := by
  unfold createTask
  rcases st.tasks a <;> rfl

theorem updateTaskStatus_queues (st : WorkerState) (a b : String) (c : Option String) :
    (updateTaskStatus st a b c).queues = st.queues := by
  unfold updateTaskStatus
  rcases st.tasks a <;> rfl

theorem updateTaskStatus_waiting (st : WorkerState) (a b : String) (c : Option String) :
    (updateTaskStatus st a b c).waiting = st.waiting := by
  unfold updateTaskStatus
  rcases st.tasks a <;> rfl

theorem updateTaskStatus_taskEvents (st : WorkerState) (a b : String) (c : Option String) :
    (updateTaskStatus st a b c).taskEvents = st.taskEvents := by
  unfold updateTaskStatus
  rcases st.tasks a <;> rfl

theorem addTaskEvent_queues (st : WorkerState) (a b c : String) (m : Option String) :
    (addTaskEvent st a b c m).queues = st.queues := rfl

theorem addTaskEvent_waiting (st : WorkerState) (a b c : String) (m : Option String) :
    (addTaskEvent st a b c m).waiting = st.waiting := rfl

theorem addTaskEvent_tasks (st : WorkerState) (a b c : String) (m : Option String) :
    (addTaskEvent st a b c m).tasks = st.tasks := rfl

theorem addLog_queues (st : WorkerState) (a b c : String) :
    (addLog st a b c).queues = st.queues := rfl

theorem addLog_waiting (st : WorkerState) (a b c : String) :
    (addLog st a b c).waiting = st.waiting := rfl

theorem addLog_tasks (st : WorkerState) (a b c : String) :
    (addLog st a b c).tasks = st.tasks := rfl

theorem addLog_taskEvents (st : WorkerState) (a b c : String) :
    (addLog st a b c).taskEvents = st.taskEvents := rfl

theorem notifyChat_queues (st : WorkerState) (ev : AgentEvent) (m : String) :
    (notifyChat st ev m).queues = st.queues := by
  unfold notifyChat
  rcases dget ev.context "chat_id" with _ | c
  · rfl
  · dsimp only
    split <;> rfl

theorem notifyChat_waiting (st : WorkerState) (ev : AgentEvent) (m : String) :
    (notifyChat st ev m).waiting = st.waiting := by
  unfold notifyChat
  rcases dget ev.context "chat_id" with _ | c
  · rfl
  · dsimp only
    split <;> rfl

theorem notifyChat_tasks (st : WorkerState) (ev : AgentEvent) (m : String) :
    (notifyChat st ev m).tasks = st.tasks := by
  unfold notifyChat
  rcases dget ev.context "chat_id" with _ | c
  · rfl
  · dsimp only
    split <;> rfl

theorem notifyChat_taskEvents (st : WorkerState) (ev : AgentEvent) (m : String) :
    (notifyChat st ev m).taskEvents = st.taskEvents := by
  unfold notifyChat
  rcases dget ev.context "chat_id" with _ | c
  · rfl
  · dsimp only
    split <;> rfl

/-!
## C5 — clarification suspends the envelope without advancing it
-/

/-- C5: when a handler returns an envelope with `needs_clarification` set,
the Stepper stores the handler's output envelope — its `data` mapping
untouched — in the clarification suspension store under
`waiting:clarification:{event_id}`, and the queue map changes only by the
pop of the input envelope: nothing is pushed to any stage queue, so the
envelope is in particular absent from the next stage's queue. -/
theorem clarification_suspends_without_advancing
    (registry : String → Option AgentImpl) (now : String) (st : WorkerState)
    (agentName : String) (agent : AgentImpl) (ev ev2 : AgentEvent) (rest : List AgentEvent)
    (hq : st.queues ("queue:" ++ agentName) = ev :: rest)
    (hreg : registry agentName = some agent)
    (hproc : agent.process ev = Except.ok ev2)
    (hclar : ev2.task.needsClarification = true) :
    (stepAgent registry now st agentName).2 = StepOutcome.suspendedClarification ev2 ∧
    (stepAgent registry now st agentName).1.waiting =
      setKey st.waiting ("waiting:clarification:" ++ ev.meta.eventId) ev2 ∧
    (stepAgent registry now st agentName).1.waiting
        ("waiting:clarification:" ++ ev.meta.eventId) = some ev2 ∧
    ((stepAgent registry now st agentName).1.waiting
        ("waiting:clarification:" ++ ev.meta.eventId)).map AgentEvent.data =
      some ev2.data ∧
    (stepAgent registry now st agentName).1.queues =
      setQueue st.queues ("queue:" ++ agentName) rest := by
  unfold stepAgent
  simp only [hq, hreg, hproc, hclar, eq_self_iff_true, if_true]
  refine ⟨by trivial, ?_, ?_, ?_, ?_⟩
  · simp only [notifyChat_waiting, addLog_waiting, addTaskEvent_waiting,
      apply_ite WorkerState.waiting, createTask_waiting, ite_self]
  · simp only [notifyChat_waiting, addLog_waiting, addTaskEvent_waiting,
      apply_ite WorkerState.waiting, createTask_waiting, ite_self, setKey,
      eq_self_iff_true, if_true]
  · simp only [notifyChat_waiting, addLog_waiting, addTaskEvent_waiting,
      apply_ite WorkerState.waiting, createTask_waiting, ite_self, setKey,
      eq_self_iff_true, if_true]
    rfl
  · simp only [notifyChat_queues, addLog_queues, addTaskEvent_queues,
      apply_ite WorkerState.queues, createTask_queues, ite_self]

theorem clarification_suspends_without_advancing_witness :
    (wStShort.queues ("queue:" ++ "REQUIREMENT") = [evtShort] ∧
     regMain "REQUIREMENT" = some requirementAgentMain ∧
     requirementAgentMain.process evtShort = Except.ok (requirementProcessMain evtShort) ∧
     (requirementProcessMain evtShort).task.needsClarification = true) ∧
    ((stepAgent regMain "t0" wStShort "REQUIREMENT").2 =
       StepOutcome.suspendedClarification (requirementProcessMain evtShort) ∧
     (stepAgent regMain "t0" wStShort "REQUIREMENT").1.waiting =
       setKey wStShort.waiting ("waiting:clarification:" ++ evtShort.meta.eventId)
         (requirementProcessMain evtShort) ∧
     (stepAgent regMain "t0" wStShort "REQUIREMENT").1.waiting
         ("waiting:clarification:" ++ evtShort.meta.eventId) =
       some (requirementProcessMain evtShort) ∧
     ((stepAgent regMain "t0" wStShort "REQUIREMENT").1.waiting
         ("waiting:clarification:" ++ evtShort.meta.eventId)).map AgentEvent.data =
       some (requirementProcessMain evtShort).data ∧
     (stepAgent regMain "t0" wStShort "REQUIREMENT").1.queues =
       setQueue wStShort.queues ("queue:" ++ "REQUIREMENT") []) :=
  ⟨⟨rfl, rfl, rfl, rfl⟩,
   clarification_suspends_without_advancing regMain "t0" wStShort "REQUIREMENT"
     requirementAgentMain evtShort (requirementProcessMain evtShort) [] rfl rfl rfl rfl⟩

/-!
## C3 — the error branch: durable FAILED record, no re-enqueue, but the
envelope itself is not mutated
-/

theorem createTask_tasks_of_mem (st : WorkerState) (a b : String) (row : TaskRow)
    (h : st.tasks a = some row) : (createTask st a b).tasks = st.tasks := by
  unfold createTask
  simp only [h]

theorem updateTaskStatus_tasks_set (st : WorkerState) (a b sname : String) (row : TaskRow)
    (h : st.tasks a = some row) (hne : sname.isEmpty = false) :
    (updateTaskStatus st a b (some sname)).tasks a =
      some { row with status := b, currentStage := sname } := by
  unfold updateTaskStatus
  simp only [h, hne, Bool.false_eq_true, if_false, setKey, eq_self_iff_true, if_true]

/-- C3 (amended): when a handler returns an envelope whose `has_error` flag
is set, the Stepper records a `failed` task event and marks the task row in
the SQLite task database FAILED (keyed by the envelope's event id), and
stops the envelope — nothing is re-enqueued to any stage queue and the
suspension store is untouched, so there is no retry.  The envelope value
itself is handed back unmodified (`errorStop ev2`); the FAILED status and
history live in the task database, not on the envelope. -/
theorem error_stop_recorded_not_reenqueued
    (registry : String → Option AgentImpl) (now : String) (st : WorkerState)
    (agentName : String) (agent : AgentImpl) (ev ev2 : AgentEvent) (rest : List AgentEvent)
    (row : TaskRow)
    (hq : st.queues ("queue:" ++ agentName) = ev :: rest)
    (hreg : registry agentName = some agent)
    (hproc : agent.process ev = Except.ok ev2)
    (hnc : ev2.task.needsClarification = false)
    (hna : ev2.task.needsApproval = false)
    (herr : ev2.task.hasError = true)
    (hrow : st.tasks ev.meta.eventId = some row)
    (hname : agentName.isEmpty = false) :
    (stepAgent registry now st agentName).2 = StepOutcome.errorStop ev2 ∧
    (stepAgent registry now st agentName).1.queues =
      setQueue st.queues ("queue:" ++ agentName) rest ∧
    (stepAgent registry now st agentName).1.waiting = st.waiting ∧
    (stepAgent registry now st agentName).1.tasks ev.meta.eventId =
      some { row with status := "FAILED", currentStage := agentName } ∧
    (stepAgent registry now st agentName).1.taskEvents =
      st.taskEvents ++
        [{ taskId := ev.meta.eventId, agent := agentName, status := "started",
           message := some "Processing started" },
         { taskId := ev.meta.eventId, agent := agentName, status := "failed",
           message := ev2.task.errorMessage }] := by
  have hite : (if agentName = "REQUIREMENT" then
      createTask { st with queues := setQueue st.queues ("queue:" ++ agentName) rest }
        ev.meta.eventId ev.task.originalPrompt
      else { st with queues := setQueue st.queues ("queue:" ++ agentName) rest }).tasks =
      st.tasks := by
    split
    · exact createTask_tasks_of_mem _ _ _ row hrow
    · rfl
  unfold stepAgent
  simp only [hq, hreg, hproc, hnc, hna, herr, Bool.false_eq_true, if_false,
    eq_self_iff_true, if_true]
  refine ⟨by trivial, ?_, ?_, ?_, ?_⟩
  · simp only [notifyChat_queues, addLog_queues, updateTaskStatus_queues,
      addTaskEvent_queues, apply_ite WorkerState.queues, createTask_queues, ite_self]
  · simp only [notifyChat_waiting, addLog_waiting, updateTaskStatus_waiting,
      addTaskEvent_waiting, apply_ite WorkerState.waiting, createTask_waiting, ite_self]
  · rw [notifyChat_tasks, addLog_tasks]
    rw [updateTaskStatus_tasks_set _ _ _ _ row ?hr hname]
    case hr =>
      simp only [addTaskEvent_tasks, addLog_tasks, hite]
      exact hrow
  · simp only [notifyChat_taskEvents, addLog_taskEvents, updateTaskStatus_taskEvents]
    show ((addTaskEvent _ _ _ _ _).taskEvents ++ _) = _
    simp only [addTaskEvent, apply_ite WorkerState.taskEvents, createTask_taskEvents,
      ite_self, List.append_assoc, List.cons_append, List.nil_append]

/-- C3 counterexample: at a concrete input the Stepper's error branch does
NOT append a FAILED history entry to the envelope and does NOT mark the
envelope's own task status FAILED — the envelope it stops (`errorStop`) has
its history and status exactly as the handler returned them, while the
FAILED status is recorded in the task database row instead. -/
theorem error_stop_envelope_unmarked_counterexample :
    (stepAgent regErr "t0" wStErr "REQUIREMENT").2 = StepOutcome.errorStop errEnv2 ∧
    errEnv2.task.status = "PENDING" ∧
    errEnv2.task.status ≠ "FAILED" ∧
    errEnv2.history = [] ∧
    evtShort.history = [] ∧
    (stepAgent regErr "t0" wStErr "REQUIREMENT").1.tasks "evt1" =
      some { originalPrompt := "short", status := "FAILED", currentStage := "REQUIREMENT" } :=
  ⟨rfl, rfl, by decide, rfl, rfl, rfl⟩

theorem error_stop_recorded_not_reenqueued_witness :
    (wStErr.queues ("queue:" ++ "REQUIREMENT") = [evtShort] ∧
     regErr "REQUIREMENT" = some errAgent ∧
     errAgent.process evtShort = Except.ok errEnv2 ∧
     errEnv2.task.needsClarification = false ∧
     errEnv2.task.needsApproval = false ∧
     errEnv2.task.hasError = true ∧
     wStErr.tasks evtShort.meta.eventId =
       some { originalPrompt := "short", status := "RUNNING", currentStage := "REQUIREMENT" } ∧
     ("REQUIREMENT" : String).isEmpty = false) ∧
    ((stepAgent regErr "t0" wStErr "REQUIREMENT").2 = StepOutcome.errorStop errEnv2 ∧
     (stepAgent regErr "t0" wStErr "REQUIREMENT").1.queues =
       setQueue wStErr.queues ("queue:" ++ "REQUIREMENT") [] ∧
     (stepAgent regErr "t0" wStErr "REQUIREMENT").1.waiting = wStErr.waiting ∧
     (stepAgent regErr "t0" wStErr "REQUIREMENT").1.tasks evtShort.meta.eventId =
       some { originalPrompt := "short", status := "FAILED", currentStage := "REQUIREMENT" } ∧
     (stepAgent regErr "t0" wStErr "REQUIREMENT").1.taskEvents =
       wStErr.taskEvents ++
         [{ taskId := evtShort.meta.eventId, agent := "REQUIREMENT", status := "started",
            message := some "Processing started" },
          { taskId := evtShort.meta.eventId, agent := "REQUIREMENT", status := "failed",
            message := errEnv2.task.errorMessage }]) :=
  ⟨⟨rfl, rfl, rfl, rfl, rfl, rfl, rfl, rfl⟩,
   error_stop_recorded_not_reenqueued regErr "t0" wStErr "REQUIREMENT" errAgent
     evtShort errEnv2 []
     { originalPrompt := "short", status := "RUNNING", currentStage := "REQUIREMENT" }
     rfl rfl rfl rfl rfl rfl rfl rfl⟩

/-!
## C8 — the success path: output recorded, history +1, advance to the
declared next stage (or COMPLETED when none is declared)
-/

theorem dget_dset_self {α : Type} (d : List (String × α)) (k : String) (v : α) :
    dget (dset d k v) k = some v := by
  induction d with
  | nil => simp [dset, dget]
  | cons e rest ih =>
    by_cases h : e.1 = k
    · simp [dset, dget, h]
    · simpa [dset, dget, h] using ih

/-- C8: (i) an ingested envelope whose prompt is long enough that the mock
REQUIREMENT handler does not request clarification is, after one Stepper
tick on stage REQUIREMENT, advanced with `data.requirement` populated,
exactly one history entry appended (stage and handler display name), and
sits in the PLAN queue and no longer in the REQUIREMENT queue; (ii) on the
success path with a declared next stage, the Stepper pushes the processed
envelope to exactly that stage's queue; (iii) with no declared next stage
it marks the task status COMPLETED and pushes nowhere. -/
theorem requirement_success_tick_advances
    (st : WorkerState) (now : String) (registry : String → Option AgentImpl)
    (ev : AgentEvent)
    (hreg : registry "REQUIREMENT" = some requirementAgentMain)
    (hq : st.queues "queue:REQUIREMENT" = [ev])
    (hqPlan : st.queues "queue:PLAN" = [])
    (hlen : 20 ≤ ev.task.originalPrompt.length)
    (hna : ev.task.needsApproval = false)
    (herr : ev.task.hasError = false)
    (registry2 : String → Option AgentImpl) (st2 : WorkerState) (now2 : String)
    (agentName2 : String) (agent2 : AgentImpl) (ev2 ev2out : AgentEvent)
    (rest2 : List AgentEvent) (n2 : String)
    (hq2 : st2.queues ("queue:" ++ agentName2) = ev2 :: rest2)
    (hreg2 : registry2 agentName2 = some agent2)
    (hproc2 : agent2.process ev2 = Except.ok ev2out)
    (hnc2 : ev2out.task.needsClarification = false)
    (hna2 : ev2out.task.needsApproval = false)
    (herr2 : ev2out.task.hasError = false)
    (hnext2 : agent2.nextAgent = some n2)
    (registry3 : String → Option AgentImpl) (st3 : WorkerState) (now3 : String)
    (agentName3 : String) (agent3 : AgentImpl) (ev3 ev3out : AgentEvent)
    (rest3 : List AgentEvent)
    (hq3 : st3.queues ("queue:" ++ agentName3) = ev3 :: rest3)
    (hreg3 : registry3 agentName3 = some agent3)
    (hproc3 : agent3.process ev3 = Except.ok ev3out)
    (hnc3 : ev3out.task.needsClarification = false)
    (hna3 : ev3out.task.needsApproval = false)
    (herr3 : ev3out.task.hasError = false)
    (hnext3 : agent3.nextAgent = none) :
    (∃ ev4, (stepAgent registry now st "REQUIREMENT").2 =
        StepOutcome.advanced ev4 (some "PLAN") ∧
      dget ev4.data "requirement" = some (some (reqRefinedOutput ev.task.originalPrompt)) ∧
      ev4.history = ev.history ++
        [{ stage := "REQUIREMENT", timestamp := now,
           message := "Processed by " ++ requirementAgentMain.displayName,
           outputSummary := none }] ∧
      ev4.history.length = ev.history.length + 1 ∧
      (stepAgent registry now st "REQUIREMENT").1.queues "queue:PLAN" = [ev4] ∧
      (stepAgent registry now st "REQUIREMENT").1.queues "queue:REQUIREMENT" = []) ∧
    (∃ ev4b, (stepAgent registry2 now2 st2 agentName2).2 =
        StepOutcome.advanced ev4b (some n2) ∧
      ev4b.task.currentStage = n2 ∧
      ev4b.task.status = ev2out.task.status ∧
      (stepAgent registry2 now2 st2 agentName2).1.queues =
        pushQueue (setQueue st2.queues ("queue:" ++ agentName2) rest2)
          ("queue:" ++ n2) ev4b) ∧
    (∃ ev4c, (stepAgent registry3 now3 st3 agentName3).2 =
        StepOutcome.advanced ev4c none ∧
      ev4c.task.status = "COMPLETED" ∧
      ev4c.task.currentStage = "DONE" ∧
      (stepAgent registry3 now3 st3 agentName3).1.queues =
        setQueue st3.queues ("queue:" ++ agentName3) rest3) := by
  refine ⟨?_, ?_, ?_⟩
  · have hlt : ¬ (ev.task.originalPrompt.length < 20) := by omega
    have hproc : requirementAgentMain.process ev =
        Except.ok ({ { ev with task :=
            { ev.task with needsClarification := false, clarificationQuestion := none } } with
          data := dataSet { ev with task :=
            { ev.task with needsClarification := false, clarificationQuestion := none } }.data
            "requirement" (some (reqRefinedOutput ev.task.originalPrompt)) }) := by
      simp [requirementAgentMain, requirementProcessMain, hlt]
    unfold stepAgent
    rw [show ("queue:" ++ "REQUIREMENT" : String) = "queue:REQUIREMENT" from rfl]
    simp only [hq, hreg, hproc, eq_self_iff_true, if_true, Bool.false_eq_true, if_false,
      hna, herr]
    simp only [show requirementAgentMain.nextAgent = some "PLAN" from rfl,
      Option.getD_some, Option.isNone_some, Option.isSome_some, Bool.false_eq_true,
      if_false, if_true]
    refine ⟨_, rfl, ?_, rfl, by simp, ?_, ?_⟩
    · exact dget_dset_self _ _ _
    · simp only [notifyChat_queues, addLog_queues, updateTaskStatus_queues,
        addTaskEvent_queues, apply_ite WorkerState.queues, createTask_queues, ite_self,
        pushQueue, setQueue]
      simp [hqPlan]
    · simp only [notifyChat_queues, addLog_queues, updateTaskStatus_queues,
        addTaskEvent_queues, apply_ite WorkerState.queues, createTask_queues, ite_self,
        pushQueue, setQueue]
      simp
  · unfold stepAgent
    simp only [hq2, hreg2, hproc2, hnc2, hna2, herr2, Bool.false_eq_true, if_false,
      hnext2, Option.getD_some, Option.isNone_some, Option.isSome_some, if_true]
    refine ⟨_, rfl, rfl, rfl, ?_⟩
    simp only [notifyChat_queues, addLog_queues, updateTaskStatus_queues,
      addTaskEvent_queues, apply_ite WorkerState.queues, createTask_queues, ite_self]
  · unfold stepAgent
    simp only [hq3, hreg3, hproc3, hnc3, hna3, herr3, Bool.false_eq_true, if_false,
      hnext3, Option.getD_none, Option.isNone_none, Option.isSome_none, if_true]
    refine ⟨_, rfl, rfl, rfl, ?_⟩
    simp only [notifyChat_queues, addLog_queues, updateTaskStatus_queues,
      addTaskEvent_queues, apply_ite WorkerState.queues, createTask_queues, ite_self]

theorem requirement_success_tick_advances_witness :
    (regMain "REQUIREMENT" = some requirementAgentMain ∧
     wStLong.queues "queue:REQUIREMENT" = [evtLong] ∧
     wStLong.queues "queue:PLAN" = [] ∧
     20 ≤ evtLong.task.originalPrompt.length ∧
     evtLong.task.needsApproval = false ∧
     evtLong.task.hasError = false ∧
     regDone "EVALUATION" = some doneAgent ∧
     wStEval.queues ("queue:" ++ "EVALUATION") = [evtLong] ∧
     doneAgent.process evtLong = Except.ok evtLong ∧
     doneAgent.nextAgent = none) ∧
    ((∃ ev4, (stepAgent regMain "t0" wStLong "REQUIREMENT").2 =
        StepOutcome.advanced ev4 (some "PLAN") ∧
      dget ev4.data "requirement" =
        some (some (reqRefinedOutput evtLong.task.originalPrompt)) ∧
      ev4.history = evtLong.history ++
        [{ stage := "REQUIREMENT", timestamp := "t0",
           message := "Processed by " ++ requirementAgentMain.displayName,
           outputSummary := none }] ∧
      ev4.history.length = evtLong.history.length + 1 ∧
      (stepAgent regMain "t0" wStLong "REQUIREMENT").1.queues "queue:PLAN" = [ev4] ∧
      (stepAgent regMain "t0" wStLong "REQUIREMENT").1.queues "queue:REQUIREMENT" = []) ∧
     (∃ ev4b, (stepAgent regMain "t0" wStLong "REQUIREMENT").2 =
        StepOutcome.advanced ev4b (some "PLAN") ∧
      ev4b.task.currentStage = "PLAN" ∧
      ev4b.task.status = (requirementProcessMain evtLong).task.status ∧
      (stepAgent regMain "t0" wStLong "REQUIREMENT").1.queues =
        pushQueue (setQueue wStLong.queues ("queue:" ++ "REQUIREMENT") [])
          ("queue:" ++ "PLAN") ev4b) ∧
     (∃ ev4c, (stepAgent regDone "t0" wStEval "EVALUATION").2 =
        StepOutcome.advanced ev4c none ∧
      ev4c.task.status = "COMPLETED" ∧
      ev4c.task.currentStage = "DONE" ∧
      (stepAgent regDone "t0" wStEval "EVALUATION").1.queues =
        setQueue wStEval.queues ("queue:" ++ "EVALUATION") [])) :=
  ⟨⟨rfl, rfl, rfl, by decide, rfl, rfl, rfl, rfl, rfl, rfl⟩,
   requirement_success_tick_advances wStLong "t0" regMain evtLong rfl rfl rfl (by decide)
     rfl rfl
     regMain wStLong "t0" "REQUIREMENT" requirementAgentMain evtLong
     (requirementProcessMain evtLong) [] "PLAN" rfl rfl rfl rfl rfl rfl rfl
     regDone wStEval "t0" "EVALUATION" doneAgent evtLong evtLong [] rfl rfl rfl rfl rfl rfl
     rfl⟩

/-!
## C4 — resume-clarification: mutate, re-enqueue to the suspending stage,
idempotent against double submission
-/

theorem eventClarify_notFound (st : WorkerState) (eventId response now : String)
    (h : st.waiting ("waiting:clarification:" ++ eventId) = none) :
    eventClarify st eventId response now = (st, ClarifyResult.notFound eventId) := by
  unfold eventClarify
  simp only [h]

/-- C4: for a stored `eventId` the resume operation removes the envelope
from the clarification store, appends the human response to
`original_prompt`, clears the clarification flag and question, appends a
history entry, and re-enqueues to `queue:REQUIREMENT` — the queue of the
stage that suspends for clarification; a second call with the same
`eventId`, and any call with an unknown `eventId`, returns "not found" and
changes nothing. -/
theorem clarify_resume_roundtrip
    (st : WorkerState) (eventId response now response2 now2 : String) (ev : AgentEvent)
    (hfound : st.waiting ("waiting:clarification:" ++ eventId) = some ev)
    (stm : WorkerState) (eventIdm responsem nowm : String)
    (hmiss : stm.waiting ("waiting:clarification:" ++ eventIdm) = none) :
    ((eventClarify st eventId response now).2 = ClarifyResult.ok eventId ∧
     (eventClarify st eventId response now).1.waiting
         ("waiting:clarification:" ++ eventId) = none ∧
     (eventClarify st eventId response now).1.queues "queue:REQUIREMENT" =
       st.queues "queue:REQUIREMENT" ++ [clarifiedEnvelope ev response now] ∧
     (clarifiedEnvelope ev response now).task.originalPrompt =
       ev.task.originalPrompt ++ "\n\n[사용자 추가 정보]: " ++ response ∧
     (clarifiedEnvelope ev response now).task.needsClarification = false ∧
     (clarifiedEnvelope ev response now).task.clarificationQuestion = none ∧
     (clarifiedEnvelope ev response now).history = ev.history ++
       [{ stage := "CLARIFICATION", timestamp := now,
          message := "User provided clarification: " ++ response.take 50 ++ "...",
          outputSummary := none }] ∧
     eventClarify (eventClarify st eventId response now).1 eventId response2 now2 =
       ((eventClarify st eventId response now).1, ClarifyResult.notFound eventId)) ∧
    eventClarify stm eventIdm responsem nowm = (stm, ClarifyResult.notFound eventIdm) := by
  have hdel : (eventClarify st eventId response now).1.waiting
      ("waiting:clarification:" ++ eventId) = none := by
    unfold eventClarify
    simp only [hfound]
    simp [addLog_waiting, delKey]
  refine ⟨⟨?_, hdel, ?_, rfl, rfl, rfl, rfl, ?_⟩, ?_⟩
  · unfold eventClarify
    simp only [hfound]
  · unfold eventClarify
    simp only [hfound]
    simp only [addLog_queues, pushQueue, eq_self_iff_true, if_true]
    rfl
  · exact eventClarify_notFound _ eventId response2 now2 hdel
  · exact eventClarify_notFound _ eventIdm responsem nowm hmiss

theorem clarify_resume_roundtrip_witness :
    (wStWait.waiting ("waiting:clarification:" ++ "evt1") =
       some (requirementProcessMain evtShort) ∧
     wStShort.waiting ("waiting:clarification:" ++ "evtX") = none) ∧
    (((eventClarify wStWait "evt1" "More details" "t1").2 = ClarifyResult.ok "evt1" ∧
      (eventClarify wStWait "evt1" "More details" "t1").1.waiting
          ("waiting:clarification:" ++ "evt1") = none ∧
      (eventClarify wStWait "evt1" "More details" "t1").1.queues "queue:REQUIREMENT" =
        wStWait.queues "queue:REQUIREMENT" ++
          [clarifiedEnvelope (requirementProcessMain evtShort) "More details" "t1"] ∧
      (clarifiedEnvelope (requirementProcessMain evtShort) "More details" "t1").task.originalPrompt =
        (requirementProcessMain evtShort).task.originalPrompt ++
          "\n\n[사용자 추가 정보]: " ++ "More details" ∧
      (clarifiedEnvelope (requirementProcessMain evtShort) "More details" "t1").task.needsClarification = false ∧
      (clarifiedEnvelope (requirementProcessMain evtShort) "More details" "t1").task.clarificationQuestion = none ∧
      (clarifiedEnvelope (requirementProcessMain evtShort) "More details" "t1").history =
        (requirementProcessMain evtShort).history ++
          [{ stage := "CLARIFICATION", timestamp := "t1",
             message := "User provided clarification: " ++ ("More details" : String).take 50 ++ "...",
             outputSummary := none }] ∧
      eventClarify (eventClarify wStWait "evt1" "More details" "t1").1 "evt1" "again" "t2" =
        ((eventClarify wStWait "evt1" "More details" "t1").1,
          ClarifyResult.notFound "evt1")) ∧
     eventClarify wStShort "evtX" "resp" "t3" = (wStShort, ClarifyResult.notFound "evtX")) :=
  ⟨⟨rfl, rfl⟩,
   clarify_resume_roundtrip wStWait "evt1" "More details" "t1" "again" "t2"
     (requirementProcessMain evtShort) rfl wStShort "evtX" "resp" "t3" rfl⟩

/-!
## C9 — schema-validation failures are logged, never fatal, never drop
-/

/-- C9: when validation of a pushed envelope fails, `push_event` still
enqueues the event as-is and reports success (the failure is only logged);
when validation of a popped item fails, `pop_event` still removes it from
the queue and returns the stored item as-is to the caller. -/
theorem validation_failure_never_drops
    {α : Type} (validate : α → Except String α) (qs qs2 : String → List α)
    (queueName queueName2 : String) (event item : α) (rest : List α) (e1 e2 : String)
    (hpush : validate event = Except.error e1)
    (hhead : qs2 queueName2 = item :: rest)
    (hpop : validate item = Except.error e2) :
    pushEvent validate qs queueName event =
      (pushQueue qs queueName event, true,
        [{ agent := "SYSTEM", message := "Schema validation failed: " ++ e1.take 100,
           status := "failed" }]) ∧
    (pushEvent validate qs queueName event).1 queueName = qs queueName ++ [event] ∧
    popEvent validate qs2 queueName2 true = (setQueue qs2 queueName2 rest, some item) := by
  refine ⟨?_, ?_, ?_⟩
  · unfold pushEvent
    simp only [hpush]
  · unfold pushEvent
    simp only [hpush]
    simp [pushQueue]
  · unfold popEvent
    simp only [hhead, hpop]
    simp

theorem validation_failure_never_drops_witness :
    (rejectAll "badevent" = Except.error "malformed" ∧
     strQ1 "queue:REQUIREMENT" = ["rawitem"] ∧
     rejectAll "rawitem" = Except.error "malformed") ∧
    (pushEvent rejectAll strQ0 "queue:PLAN" "badevent" =
       (pushQueue strQ0 "queue:PLAN" "badevent", true,
         [{ agent := "SYSTEM",
            message := "Schema validation failed: " ++ ("malformed" : String).take 100,
            status := "failed" }]) ∧
     (pushEvent rejectAll strQ0 "queue:PLAN" "badevent").1 "queue:PLAN" =
       strQ0 "queue:PLAN" ++ ["badevent"] ∧
     popEvent rejectAll strQ1 "queue:REQUIREMENT" true =
       (setQueue strQ1 "queue:REQUIREMENT" [], some "rawitem")) :=
  ⟨⟨rfl, rfl, rfl⟩,
   validation_failure_never_drops rejectAll strQ0 strQ1 "queue:PLAN" "queue:REQUIREMENT"
     "badevent" "rawitem" [] "malformed" "malformed" rfl rfl rfl⟩

/-!
## Poller support lemmas
-/

theorem pollItem_eventId (env : PollEnv) (now T : Nat) (p : PendingPR) :
    (pollItem env now T p).1.eventId = p.eventId := by
  unfold pollItem
  split
  · rfl
  · split
    · rfl
    · split
      · rfl
      · split
        · rfl
        · dsimp only
          split
          · rfl
          · split <;> rfl

theorem pollItem_timeout (env : PollEnv) (now T : Nat) (p : PendingPR)
    (h : now - p.createdAt > T) :
    pollItem env now T p = ({ p with status := "timeout" }, PollItemOutcome.timedOut) := by
  unfold pollItem
  rw [if_pos h]

theorem pollItem_rework (env : PollEnv) (now T : Nat) (p : PendingPR)
    (reviews : List Review) (comments : List CommentData) (fb : ReviewFeedback)
    (hto : ¬ now - p.createdAt > T)
    (hrev : env.reviewsOf p.prNumber p.repoOwner p.repoName = Except.ok (reviews, comments))
    (hfb : getPendingFeedback p.prNumber reviews comments = some fb) :
    pollItem env now T p = (p, PollItemOutcome.rework fb) := by
  unfold pollItem
  rw [if_neg hto]
  simp only [hrev, hfb]

theorem pollItem_merged (env : PollEnv) (now T : Nat) (p : PendingPR)
    (reviews : List Review) (comments : List CommentData)
    (hto : ¬ now - p.createdAt > T)
    (hrev : env.reviewsOf p.prNumber p.repoOwner p.repoName = Except.ok (reviews, comments))
    (hfb : getPendingFeedback p.prNumber reviews comments = none)
    (hst : env.statusOf p.prNumber = Except.ok (some "merged")) :
    pollItem env now T p =
      ({ p with lastChecked := some now, status := "merged" }, PollItemOutcome.merged) := by
  unfold pollItem
  rw [if_neg hto]
  simp only [hrev, hfb, hst, Option.getD_some]
  rfl

theorem pollItem_open (env : PollEnv) (now T : Nat) (p : PendingPR)
    (reviews : List Review) (comments : List CommentData)
    (hto : ¬ now - p.createdAt > T)
    (hrev : env.reviewsOf p.prNumber p.repoOwner p.repoName = Except.ok (reviews, comments))
    (hfb : getPendingFeedback p.prNumber reviews comments = none)
    (hst : env.statusOf p.prNumber = Except.ok (some "open")) :
    pollItem env now T p = ({ p with lastChecked := some now }, PollItemOutcome.stay) := by
  unfold pollItem
  rw [if_neg hto]
  simp only [hrev, hfb, hst, Option.getD_some]
  rfl

theorem pollItem_errStay (env : PollEnv) (now T : Nat) (p : PendingPR)
    (reviews : List Review) (comments : List CommentData) (msg : String)
    (hto : ¬ now - p.createdAt > T)
    (hrev : env.reviewsOf p.prNumber p.repoOwner p.repoName = Except.ok (reviews, comments))
    (hfb : getPendingFeedback p.prNumber reviews comments = none)
    (hst : env.statusOf p.prNumber = Except.error msg) :
    pollItem env now T p = (p, PollItemOutcome.errStay msg) := by
  unfold pollItem
  rw [if_neg hto]
  simp only [hrev, hfb, hst]

theorem dget_dremove {α : Type} (d : List (String × α)) (k k2 : String) :
    dget (dremove d k2) k = if k = k2 then none else dget d k := by
  induction d with
  | nil => simp [dremove, dget, ite_self]
  | cons e rest ih =>
    by_cases h1 : e.1 = k2
    · have hrm : dremove (e :: rest) k2 = dremove rest k2 := by
        simp [dremove, List.filter_cons, h1]
      rw [hrm, ih]
      by_cases h2 : k = k2
      · simp [h2]
      · have h3 : ¬ e.1 = k := fun hx => h2 ((hx.symm.trans h1))
        simp [h2, dget, h3]
    · have hrm : dremove (e :: rest) k2 = e :: dremove rest k2 := by
        simp [dremove, List.filter_cons, h1]
      rw [hrm]
      by_cases h3 : e.1 = k
      · have hk : ¬ k = k2 := fun hk => h1 (h3.trans hk)
        simp [dget, h3, hk]
      · simp [dget, h3, ih]

theorem dget_foldl_dremove (ps : List PendingPR) :
    ∀ (m : List (String × PendingPR)) (k : String),
      dget (ps.foldl (fun acc p => dremove acc p.eventId) m) k =
        if ps.any (fun p => p.eventId == k) then none else dget m k := by
  induction ps with
  | nil => intro m k; simp
  | cons p rest ih =>
    intro m k
    rw [List.foldl_cons, ih, dget_dremove]
    by_cases hp : p.eventId = k
    · simp [List.any_cons, hp, ite_self]
    · simp [List.any_cons, hp, Ne.symm hp]

theorem dget_append_skip {α : Type} (l1 l2 : List (String × α)) (k : String)
    (h : ∀ e ∈ l1, e.1 ≠ k) : dget (l1 ++ l2) k = dget l2 k := by
  induction l1 with
  | nil => simp
  | cons e rest ih =>
    have he : ¬ e.1 = k := h e (List.mem_cons_self e rest)
    simp only [List.cons_append, dget, he, if_false]
    exact ih (fun x hx => h x (List.mem_cons_of_mem e hx))

theorem dget_pollUpdated (env : PollEnv) (now T : Nat) (l : List (String × PendingPR))
    (k : String) :
    dget (pollUpdated env now T l) k = (dget l k).map (fun p => (pollItem env now T p).1) := by
  induction l with
  | nil => simp [pollUpdated, pollResults, dget]
  | cons e rest ih =>
    by_cases h : e.1 = k
    · simp [pollUpdated, pollResults, dget, h]
    · simpa [pollUpdated, pollResults, dget, h] using ih

theorem mem_pollCompleted (env : PollEnv) (now T : Nat) (l : List (String × PendingPR))
    (q : PendingPR) (h : q ∈ pollCompleted env now T l) :
    ∃ e ∈ l, q = (pollItem env now T e.2).1 := by
  unfold pollCompleted pollResults at h
  rw [List.mem_filterMap] at h
  obtain ⟨r, hr, heq⟩ := h
  rw [List.mem_map] at hr
  obtain ⟨e, he, rfl⟩ := hr
  refine ⟨e, he, ?_⟩
  split at heq
  · injection heq with h2
    exact h2.symm
  · exact Option.noConfusion heq

theorem mem_pollMergedCalls (env : PollEnv) (now T : Nat) (l : List (String × PendingPR))
    (x : String) (h : x ∈ pollMergedCalls env now T l) :
    ∃ e ∈ l, x = e.2.eventId := by
  unfold pollMergedCalls at h
  rw [List.mem_filterMap] at h
  obtain ⟨q, hq, heq⟩ := h
  obtain ⟨e, he, rfl⟩ := mem_pollCompleted env now T l q hq
  refine ⟨e, he, ?_⟩
  split at heq
  · injection heq with h2
    rw [← h2, pollItem_eventId]
  · exact Option.noConfusion heq

theorem mem_pollReworkCalls (env : PollEnv) (now T : Nat) (l : List (String × PendingPR))
    (y : String × ReviewFeedback) (h : y ∈ pollReworkCalls env now T l) :
    ∃ e ∈ l, y.1 = e.2.eventId := by
  unfold pollReworkCalls pollResults at h
  rw [List.mem_filterMap] at h
  obtain ⟨r, hr, heq⟩ := h
  rw [List.mem_map] at hr
  obtain ⟨e, he, rfl⟩ := hr
  refine ⟨e, he, ?_⟩
  split at heq
  · split at heq
    · injection heq with h2
      rw [← h2]
      exact pollItem_eventId env now T e.2
    · exact Option.noConfusion heq
  · exact Option.noConfusion heq

theorem pollCompleted_append (env : PollEnv) (now T : Nat)
    (l1 l2 : List (String × PendingPR)) :
    pollCompleted env now T (l1 ++ l2) =
      pollCompleted env now T l1 ++ pollCompleted env now T l2 := by
  simp [pollCompleted, pollResults]

theorem pollCompleted_cons (env : PollEnv) (now T : Nat) (e : String × PendingPR)
    (l : List (String × PendingPR)) :
    pollCompleted env now T (e :: l) =
      (if isCompletedOutcome (pollItem env now T e.2).2 then [(pollItem env now T e.2).1]
       else []) ++ pollCompleted env now T l := by
  simp only [pollCompleted, pollResults, List.map_cons, List.filterMap_cons]
  split <;> simp_all

theorem pollMergedCalls_eq (env : PollEnv) (now T : Nat)
    (l : List (String × PendingPR)) :
    pollMergedCalls env now T l = (pollCompleted env now T l).filterMap (fun p =>
      if env.mergedCbSet && p.status == "merged" then some p.eventId else none) := rfl

theorem pollReworkCalls_append (env : PollEnv) (now T : Nat)
    (l1 l2 : List (String × PendingPR)) :
    pollReworkCalls env now T (l1 ++ l2) =
      pollReworkCalls env now T l1 ++ pollReworkCalls env now T l2 := by
  simp [pollReworkCalls, pollResults]

theorem pollReworkCalls_cons (env : PollEnv) (now T : Nat) (e : String × PendingPR)
    (l : List (String × PendingPR)) :
    pollReworkCalls env now T (e :: l) =
      (match (pollItem env now T e.2).2 with
       | .rework fb =>
         if env.reworkCbSet then [((pollItem env now T e.2).1.eventId, fb)] else []
       | _ => []) ++ pollReworkCalls env now T l := by
  rcases ho : (pollItem env now T e.2).2 with _ | fb | _ | _ | _ | m <;>
    by_cases hc : env.reworkCbSet <;>
    simp [pollReworkCalls, pollResults, List.filterMap_cons, ho, hc]

/-!
## Single-registration lemmas for `poll_once`

`hside` states that all other registrations are keyed consistently
(`key = eventId`) and by keys different from the distinguished
registration's.
-/

theorem side_facts {l : List (String × PendingPR)} {pe : String}
    (hside : (l.all (fun e => e.2.eventId == e.1 && !(e.1 == pe))) = true) :
    ∀ e ∈ l, e.2.eventId = e.1 ∧ ¬ e.1 = pe := by
  intro e he
  have h := (List.all_eq_true.mp hside) e he
  simp only [Bool.and_eq_true, beq_iff_eq, Bool.not_eq_true] at h
  exact ⟨h.1, by simpa using h.2⟩

theorem pollOnce_pending_lookup (env : PollEnv) (now T : Nat)
    (l1 l2 : List (String × PendingPR)) (p : PendingPR)
    (hside : (((l1 ++ l2)).all
      (fun e => e.2.eventId == e.1 && !(e.1 == p.eventId))) = true) :
    dget (pollOnce env now T (l1 ++ (p.eventId, p) :: l2)).pending p.eventId =
      if isCompletedOutcome (pollItem env now T p).2 then none
      else some (pollItem env now T p).1 := by
  have hmem := side_facts hside
  have hmem1 : ∀ e ∈ l1, e.2.eventId = e.1 ∧ ¬ e.1 = p.eventId :=
    fun e he => hmem e (List.mem_append_left _ he)
  have hmem2 : ∀ e ∈ l2, e.2.eventId = e.1 ∧ ¬ e.1 = p.eventId :=
    fun e he => hmem e (List.mem_append_right _ he)
  have hany : (pollCompleted env now T (l1 ++ (p.eventId, p) :: l2)).any
      (fun q => q.eventId == p.eventId) = isCompletedOutcome (pollItem env now T p).2 := by
    rw [pollCompleted_append, pollCompleted_cons]
    simp only [List.any_append]
    have hA : (pollCompleted env now T l1).any (fun q => q.eventId == p.eventId) = false := by
      rw [List.any_eq_false]
      intro q hq
      obtain ⟨e, he, rfl⟩ := mem_pollCompleted env now T l1 q hq
      rw [pollItem_eventId]
      simp only [beq_iff_eq, (hmem1 e he).1]
      exact (hmem1 e he).2
    have hC : (pollCompleted env now T l2).any (fun q => q.eventId == p.eventId) = false := by
      rw [List.any_eq_false]
      intro q hq
      obtain ⟨e, he, rfl⟩ := mem_pollCompleted env now T l2 q hq
      rw [pollItem_eventId]
      simp only [beq_iff_eq, (hmem2 e he).1]
      exact (hmem2 e he).2
    rw [hA, hC]
    by_cases hco : isCompletedOutcome (pollItem env now T p).2
    · simp [hco, pollItem_eventId]
    · simp [hco]
  have hupd : dget (pollUpdated env now T (l1 ++ (p.eventId, p) :: l2)) p.eventId =
      some ((pollItem env now T p).1) := by
    rw [dget_pollUpdated]
    rw [dget_append_skip _ _ _ (fun e he => (hmem1 e he).2)]
    simp [dget]
  show dget ((pollCompleted env now T (l1 ++ (p.eventId, p) :: l2)).foldl
      (fun acc q => dremove acc q.eventId)
      (pollUpdated env now T (l1 ++ (p.eventId, p) :: l2))) p.eventId = _
  rw [dget_foldl_dremove, hany, hupd]

theorem pollOnce_merged_count_middle (env : PollEnv) (now T : Nat)
    (l1 l2 : List (String × PendingPR)) (p : PendingPR)
    (hside : (((l1 ++ l2)).all
      (fun e => e.2.eventId == e.1 && !(e.1 == p.eventId))) = true) :
    (pollOnce env now T (l1 ++ (p.eventId, p) :: l2)).mergedCalls.count p.eventId =
      (pollMergedCalls env now T [(p.eventId, p)]).count p.eventId := by
  have hmem := side_facts hside
  have hmem1 : ∀ e ∈ l1, e.2.eventId = e.1 ∧ ¬ e.1 = p.eventId :=
    fun e he => hmem e (List.mem_append_left _ he)
  have hmem2 : ∀ e ∈ l2, e.2.eventId = e.1 ∧ ¬ e.1 = p.eventId :=
    fun e he => hmem e (List.mem_append_right _ he)
  show (pollMergedCalls env now T (l1 ++ (p.eventId, p) :: l2)).count p.eventId = _
  have hsplit : pollMergedCalls env now T (l1 ++ (p.eventId, p) :: l2) =
      pollMergedCalls env now T l1 ++
      (pollMergedCalls env now T [(p.eventId, p)] ++ pollMergedCalls env now T l2) := by
    unfold pollMergedCalls
    rw [show (l1 ++ (p.eventId, p) :: l2) = l1 ++ ([(p.eventId, p)] ++ l2) from by simp,
      pollCompleted_append, pollCompleted_append]
    simp [List.filterMap_append]
  rw [hsplit, List.count_append, List.count_append]
  have hz1 : (pollMergedCalls env now T l1).count p.eventId = 0 := by
    rw [List.count_eq_zero]
    intro hmm
    obtain ⟨e, he, hx⟩ := mem_pollMergedCalls env now T l1 p.eventId hmm
    exact (hmem1 e he).2 ((hmem1 e he).1 ▸ hx ▸ rfl)
  have hz2 : (pollMergedCalls env now T l2).count p.eventId = 0 := by
    rw [List.count_eq_zero]
    intro hmm
    obtain ⟨e, he, hx⟩ := mem_pollMergedCalls env now T l2 p.eventId hmm
    exact (hmem2 e he).2 ((hmem2 e he).1 ▸ hx ▸ rfl)
  rw [hz1, hz2]
  omega

theorem pollOnce_rework_count_middle (env : PollEnv) (now T : Nat)
    (l1 l2 : List (String × PendingPR)) (p : PendingPR)
    (hside : (((l1 ++ l2)).all
      (fun e => e.2.eventId == e.1 && !(e.1 == p.eventId))) = true) :
    ((pollOnce env now T (l1 ++ (p.eventId, p) :: l2)).reworkCalls.map Prod.fst).count
        p.eventId =
      ((pollReworkCalls env now T [(p.eventId, p)]).map Prod.fst).count p.eventId := by
  have hmem := side_facts hside
  have hmem1 : ∀ e ∈ l1, e.2.eventId = e.1 ∧ ¬ e.1 = p.eventId :=
    fun e he => hmem e (List.mem_append_left _ he)
  have hmem2 : ∀ e ∈ l2, e.2.eventId = e.1 ∧ ¬ e.1 = p.eventId :=
    fun e he => hmem e (List.mem_append_right _ he)
  show ((pollReworkCalls env now T (l1 ++ (p.eventId, p) :: l2)).map Prod.fst).count
      p.eventId = _
  have hsplit : pollReworkCalls env now T (l1 ++ (p.eventId, p) :: l2) =
      pollReworkCalls env now T l1 ++
      (pollReworkCalls env now T [(p.eventId, p)] ++ pollReworkCalls env now T l2) := by
    rw [show (l1 ++ (p.eventId, p) :: l2) = l1 ++ ([(p.eventId, p)] ++ l2) from by simp,
      pollReworkCalls_append, pollReworkCalls_append]
  rw [hsplit, List.map_append, List.map_append, List.count_append, List.count_append]
  have hz1 : ((pollReworkCalls env now T l1).map Prod.fst).count p.eventId = 0 := by
    rw [List.count_eq_zero]
    intro hmm
    rw [List.mem_map] at hmm
    obtain ⟨y, hy, hyx⟩ := hmm
    obtain ⟨e, he, hx⟩ := mem_pollReworkCalls env now T l1 y hy
    exact (hmem1 e he).2 ((hmem1 e he).1 ▸ hx ▸ hyx)
  have hz2 : ((pollReworkCalls env now T l2).map Prod.fst).count p.eventId = 0 := by
    rw [List.count_eq_zero]
    intro hmm
    rw [List.mem_map] at hmm
    obtain ⟨y, hy, hyx⟩ := hmm
    obtain ⟨e, he, hx⟩ := mem_pollReworkCalls env now T l2 y hy
    exact (hmem2 e he).2 ((hmem2 e he).1 ▸ hx ▸ hyx)
  rw [hz1, hz2]
  omega

theorem pollOnce_completed_middle_mem (env : PollEnv) (now T : Nat)
    (l1 l2 : List (String × PendingPR)) (p : PendingPR) (q : PendingPR)
    (hq : q ∈ pollCompleted env now T [(p.eventId, p)]) :
    q ∈ (pollOnce env now T (l1 ++ (p.eventId, p) :: l2)).completed := by
  show q ∈ pollCompleted env now T (l1 ++ (p.eventId, p) :: l2)
  rw [show (l1 ++ (p.eventId, p) :: l2) = l1 ++ ([(p.eventId, p)] ++ l2) from by simp,
    pollCompleted_append, pollCompleted_append]
  exact List.mem_append_right _ (List.mem_append_left _ hq)

theorem pollOnce_rework_middle_mem (env : PollEnv) (now T : Nat)
    (l1 l2 : List (String × PendingPR)) (p : PendingPR) (y : String × ReviewFeedback)
    (hy : y ∈ pollReworkCalls env now T [(p.eventId, p)]) :
    y ∈ (pollOnce env now T (l1 ++ (p.eventId, p) :: l2)).reworkCalls := by
  show y ∈ pollReworkCalls env now T (l1 ++ (p.eventId, p) :: l2)
  rw [show (l1 ++ (p.eventId, p) :: l2) = l1 ++ ([(p.eventId, p)] ++ l2) from by simp,
    pollReworkCalls_append, pollReworkCalls_append]
  exact List.mem_append_right _ (List.mem_append_left _ hy)

/-!
## C2 — the four PR-wait outcomes of one `poll_once` call
-/

/-- C2: for a registered PendingPR (in an otherwise consistently-keyed
`_pending` dict), one `poll_once` call satisfies: (a) open PR, no pending
`CHANGES_REQUESTED` review, within the timeout horizon — the registration
stays (only `last_checked` refreshed) and neither callback fires for it;
(b) merged (no pending review, no timeout) — the merged callback fires
exactly once and the registration is removed; (c) age beyond the timeout
horizon — the registration is returned in `completed` with
`status = "timeout"`, removed, and the merged callback never fires for it;
(d) a pending `CHANGES_REQUESTED` review — the rework callback fires with
the feedback and the registration is still present, unchanged (the
merge/close check is not reached: the conclusion holds for every
`statusOf` behaviour, which is left fully unconstrained). -/
theorem poll_once_outcomes
    (envA : PollEnv) (nowA TA : Nat) (l1A l2A : List (String × PendingPR)) (pA : PendingPR)
    (rvsA : List Review) (cmsA : List CommentData)
    (hsideA : ((l1A ++ l2A).all
      (fun e => e.2.eventId == e.1 && !(e.1 == pA.eventId))) = true)
    (htoA : ¬ nowA - pA.createdAt > TA)
    (hrevA : envA.reviewsOf pA.prNumber pA.repoOwner pA.repoName = Except.ok (rvsA, cmsA))
    (hfbA : getPendingFeedback pA.prNumber rvsA cmsA = none)
    (hstA : envA.statusOf pA.prNumber = Except.ok (some "open"))
    (envB : PollEnv) (nowB TB : Nat) (l1B l2B : List (String × PendingPR)) (pB : PendingPR)
    (rvsB : List Review) (cmsB : List CommentData)
    (hsideB : ((l1B ++ l2B).all
      (fun e => e.2.eventId == e.1 && !(e.1 == pB.eventId))) = true)
    (htoB : ¬ nowB - pB.createdAt > TB)
    (hrevB : envB.reviewsOf pB.prNumber pB.repoOwner pB.repoName = Except.ok (rvsB, cmsB))
    (hfbB : getPendingFeedback pB.prNumber rvsB cmsB = none)
    (hstB : envB.statusOf pB.prNumber = Except.ok (some "merged"))
    (hcbB : envB.mergedCbSet = true)
    (envC : PollEnv) (nowC TC : Nat) (l1C l2C : List (String × PendingPR)) (pC : PendingPR)
    (hsideC : ((l1C ++ l2C).all
      (fun e => e.2.eventId == e.1 && !(e.1 == pC.eventId))) = true)
    (htoC : nowC - pC.createdAt > TC)
    (envD : PollEnv) (nowD TD : Nat) (l1D l2D : List (String × PendingPR)) (pD : PendingPR)
    (rvsD : List Review) (cmsD : List CommentData) (fbD : ReviewFeedback)
    (hsideD : ((l1D ++ l2D).all
      (fun e => e.2.eventId == e.1 && !(e.1 == pD.eventId))) = true)
    (htoD : ¬ nowD - pD.createdAt > TD)
    (hrevD : envD.reviewsOf pD.prNumber pD.repoOwner pD.repoName = Except.ok (rvsD, cmsD))
    (hfbD : getPendingFeedback pD.prNumber rvsD cmsD = some fbD)
    (hcbD : envD.reworkCbSet = true) :
    (dget (pollOnce envA nowA TA (l1A ++ (pA.eventId, pA) :: l2A)).pending pA.eventId =
       some { pA with lastChecked := some nowA } ∧
     (pollOnce envA nowA TA (l1A ++ (pA.eventId, pA) :: l2A)).mergedCalls.count
       pA.eventId = 0 ∧
     ((pollOnce envA nowA TA (l1A ++ (pA.eventId, pA) :: l2A)).reworkCalls.map
       Prod.fst).count pA.eventId = 0) ∧
    ((pollOnce envB nowB TB (l1B ++ (pB.eventId, pB) :: l2B)).mergedCalls.count
       pB.eventId = 1 ∧
     dget (pollOnce envB nowB TB (l1B ++ (pB.eventId, pB) :: l2B)).pending pB.eventId =
       none ∧
     ((pollOnce envB nowB TB (l1B ++ (pB.eventId, pB) :: l2B)).reworkCalls.map
       Prod.fst).count pB.eventId = 0) ∧
    ({ pC with status := "timeout" } ∈
       (pollOnce envC nowC TC (l1C ++ (pC.eventId, pC) :: l2C)).completed ∧
     dget (pollOnce envC nowC TC (l1C ++ (pC.eventId, pC) :: l2C)).pending pC.eventId =
       none ∧
     (pollOnce envC nowC TC (l1C ++ (pC.eventId, pC) :: l2C)).mergedCalls.count
       pC.eventId = 0) ∧
    ((pD.eventId, fbD) ∈
       (pollOnce envD nowD TD (l1D ++ (pD.eventId, pD) :: l2D)).reworkCalls ∧
     dget (pollOnce envD nowD TD (l1D ++ (pD.eventId, pD) :: l2D)).pending pD.eventId =
       some pD ∧
     (pollOnce envD nowD TD (l1D ++ (pD.eventId, pD) :: l2D)).mergedCalls.count
       pD.eventId = 0) := by
  have hIa := pollItem_open envA nowA TA pA rvsA cmsA htoA hrevA hfbA hstA
  have hIb := pollItem_merged envB nowB TB pB rvsB cmsB htoB hrevB hfbB hstB
  have hIc := pollItem_timeout envC nowC TC pC htoC
  have hId := pollItem_rework envD nowD TD pD rvsD cmsD fbD htoD hrevD hfbD
  refine ⟨⟨?_, ?_, ?_⟩, ⟨?_, ?_, ?_⟩, ⟨?_, ?_, ?_⟩, ⟨?_, ?_, ?_⟩⟩
  · rw [pollOnce_pending_lookup envA nowA TA l1A l2A pA hsideA, hIa]
    simp [isCompletedOutcome]
  · rw [pollOnce_merged_count_middle envA nowA TA l1A l2A pA hsideA]
    simp [pollMergedCalls, pollCompleted, pollResults, hIa, isCompletedOutcome]
  · rw [pollOnce_rework_count_middle envA nowA TA l1A l2A pA hsideA]
    simp [pollReworkCalls, pollResults, hIa]
  · rw [pollOnce_merged_count_middle envB nowB TB l1B l2B pB hsideB]
    simp [pollMergedCalls, pollCompleted, pollResults, hIb, isCompletedOutcome, hcbB,
      List.count_cons]
  · rw [pollOnce_pending_lookup envB nowB TB l1B l2B pB hsideB, hIb]
    simp [isCompletedOutcome]
  · rw [pollOnce_rework_count_middle envB nowB TB l1B l2B pB hsideB]
    simp [pollReworkCalls, pollResults, hIb]
  · apply pollOnce_completed_middle_mem
    simp [pollCompleted, pollResults, hIc, isCompletedOutcome]
  · rw [pollOnce_pending_lookup envC nowC TC l1C l2C pC hsideC, hIc]
    simp [isCompletedOutcome]
  · rw [pollOnce_merged_count_middle envC nowC TC l1C l2C pC hsideC]
    simp [pollMergedCalls, pollCompleted, pollResults, hIc, isCompletedOutcome,
      List.count_eq_zero]
  · apply pollOnce_rework_middle_mem
    simp [pollReworkCalls, pollResults, hId, hcbD]
  · rw [pollOnce_pending_lookup envD nowD TD l1D l2D pD hsideD, hId]
    simp [isCompletedOutcome]
  · rw [pollOnce_merged_count_middle envD nowD TD l1D l2D pD hsideD]
    simp [pollMergedCalls, pollCompleted, pollResults, hId, isCompletedOutcome]

theorem poll_once_outcomes_witness :
    (((([] : List (String × PendingPR)) ++ []).all
        (fun e => e.2.eventId == e.1 && !(e.1 == ppA.eventId))) = true ∧
     ¬ 100 - ppA.createdAt > 1000 ∧
     envOpen.reviewsOf ppA.prNumber ppA.repoOwner ppA.repoName = Except.ok ([], []) ∧
     getPendingFeedback ppA.prNumber [] [] = none ∧
     envOpen.statusOf ppA.prNumber = Except.ok (some "open") ∧
     envMerged.statusOf ppB.prNumber = Except.ok (some "merged") ∧
     envMerged.mergedCbSet = true ∧
     2000 - ppC.createdAt > 1000 ∧
     envCR.reviewsOf ppD.prNumber ppD.repoOwner ppD.repoName =
       Except.ok ([reviewCR], []) ∧
     getPendingFeedback ppD.prNumber [reviewCR] [] = some fbCR ∧
     envCR.reworkCbSet = true) ∧
    ((dget (pollOnce envOpen 100 1000 [(ppA.eventId, ppA)]).pending ppA.eventId =
        some { ppA with lastChecked := some 100 } ∧
      (pollOnce envOpen 100 1000 [(ppA.eventId, ppA)]).mergedCalls.count ppA.eventId = 0 ∧
      ((pollOnce envOpen 100 1000 [(ppA.eventId, ppA)]).reworkCalls.map Prod.fst).count
        ppA.eventId = 0) ∧
     ((pollOnce envMerged 100 1000 [(ppB.eventId, ppB)]).mergedCalls.count ppB.eventId = 1 ∧
      dget (pollOnce envMerged 100 1000 [(ppB.eventId, ppB)]).pending ppB.eventId = none ∧
      ((pollOnce envMerged 100 1000 [(ppB.eventId, ppB)]).reworkCalls.map Prod.fst).count
        ppB.eventId = 0) ∧
     ({ ppC with status := "timeout" } ∈
        (pollOnce envOpen 2000 1000 [(ppC.eventId, ppC)]).completed ∧
      dget (pollOnce envOpen 2000 1000 [(ppC.eventId, ppC)]).pending ppC.eventId = none ∧
      (pollOnce envOpen 2000 1000 [(ppC.eventId, ppC)]).mergedCalls.count ppC.eventId = 0) ∧
     ((ppD.eventId, fbCR) ∈ (pollOnce envCR 100 1000 [(ppD.eventId, ppD)]).reworkCalls ∧
      dget (pollOnce envCR 100 1000 [(ppD.eventId, ppD)]).pending ppD.eventId = some ppD ∧
      (pollOnce envCR 100 1000 [(ppD.eventId, ppD)]).mergedCalls.count ppD.eventId = 0)) :=
  ⟨⟨rfl, by decide, rfl, rfl, rfl, rfl, rfl, by decide, rfl, rfl, rfl⟩,
   poll_once_outcomes
     envOpen 100 1000 [] [] ppA [] [] rfl (by decide) rfl rfl rfl
     envMerged 100 1000 [] [] ppB [] [] rfl (by decide) rfl rfl rfl rfl
     envOpen 2000 1000 [] [] ppC rfl (by decide)
     envCR 100 1000 [] [] ppD [reviewCR] [] fbCR rfl (by decide) rfl rfl rfl⟩

/-!
## Per-stage characterization lemmas for one worker tick
-/

theorem stepAgent_empty (registry : String → Option AgentImpl) (now : String)
    (st : WorkerState) (agentName : String)
    (hq : st.queues ("queue:" ++ agentName) = []) :
    stepAgent registry now st agentName = (st, StepOutcome.emptyQueue) := by
  unfold stepAgent
  simp only [hq]

theorem stepAgent_exn_outcome (registry : String → Option AgentImpl) (now : String)
    (st : WorkerState) (agentName : String) (agent : AgentImpl) (ev : AgentEvent)
    (rest : List AgentEvent) (msg : String)
    (hq : st.queues ("queue:" ++ agentName) = ev :: rest)
    (hreg : registry agentName = some agent)
    (hproc : agent.process ev = Except.error msg) :
    (stepAgent registry now st agentName).2 = StepOutcome.exnCaught msg ∧
    (stepAgent registry now st agentName).1.queues =
      setQueue st.queues ("queue:" ++ agentName) rest ∧
    (stepAgent registry now st agentName).1.waiting = st.waiting := by
  unfold stepAgent
  simp only [hq, hreg, hproc]
  refine ⟨?_, ?_, ?_⟩
  · trivial
  · simp only [addLog_queues, updateTaskStatus_queues, addTaskEvent_queues,
      apply_ite WorkerState.queues, createTask_queues, ite_self]
  · simp only [addLog_waiting, updateTaskStatus_waiting, addTaskEvent_waiting,
      apply_ite WorkerState.waiting, createTask_waiting, ite_self]

theorem createTask_tasks_fresh (st : WorkerState) (a b : String)
    (h : st.tasks a = none) :
    (createTask st a b).tasks = setKey st.tasks a
      { originalPrompt := b, status := "PENDING", currentStage := "REQUIREMENT" } := by
  unfold createTask
  simp only [h]

theorem setKey_self {β : Type} (m : String → Option β) (k : String) (v : β) :
    setKey m k v k = some v := by
  simp [setKey]

theorem setKey_other {β : Type} (m : String → Option β) (k k2 : String) (v : β)
    (h : ¬ k2 = k) : setKey m k v k2 = m k2 := by
  simp [setKey, h]

theorem stepAgent_exn_tasks_requirement (registry : String → Option AgentImpl)
    (now : String) (st : WorkerState) (agent : AgentImpl) (ev : AgentEvent)
    (rest : List AgentEvent) (msg : String)
    (hq : st.queues "queue:REQUIREMENT" = ev :: rest)
    (hreg : registry "REQUIREMENT" = some agent)
    (hproc : agent.process ev = Except.error msg)
    (hrow : st.tasks ev.meta.eventId = none) :
    (stepAgent registry now st "REQUIREMENT").1.tasks ev.meta.eventId =
      some { originalPrompt := ev.task.originalPrompt, status := "FAILED",
             currentStage := "REQUIREMENT" } ∧
    ((stepAgent registry now st "REQUIREMENT").1.tasks =
      setKey (setKey st.tasks ev.meta.eventId
        { originalPrompt := ev.task.originalPrompt, status := "PENDING",
          currentStage := "REQUIREMENT" }) ev.meta.eventId
        { originalPrompt := ev.task.originalPrompt, status := "FAILED",
          currentStage := "REQUIREMENT" }) := by
  unfold stepAgent
  rw [show ("queue:" ++ "REQUIREMENT" : String) = "queue:REQUIREMENT" from rfl]
  simp only [hq, hreg, hproc, eq_self_iff_true, if_true]
  have hct : (createTask { st with queues := setQueue st.queues "queue:REQUIREMENT" rest }
      ev.meta.eventId ev.task.originalPrompt).tasks =
      setKey st.tasks ev.meta.eventId
        { originalPrompt := ev.task.originalPrompt, status := "PENDING",
          currentStage := "REQUIREMENT" } := by
    rw [createTask_tasks_fresh]
    exact hrow
  have hpend : (createTask { st with queues := setQueue st.queues "queue:REQUIREMENT" rest }
      ev.meta.eventId ev.task.originalPrompt).tasks ev.meta.eventId =
      some { originalPrompt := ev.task.originalPrompt, status := "PENDING",
             currentStage := "REQUIREMENT" } := by
    rw [hct]
    exact setKey_self _ _ _
  constructor
  · rw [addLog_tasks]
    rw [updateTaskStatus_tasks_set _ _ _ _
      { originalPrompt := ev.task.originalPrompt, status := "PENDING",
        currentStage := "REQUIREMENT" } ?hr (by decide)]
    case hr =>
      simp only [addTaskEvent_tasks, addLog_tasks]
      exact hpend
  · rw [addLog_tasks]
    unfold updateTaskStatus
    simp only [addTaskEvent_tasks, addLog_tasks, hpend]
    simp only [show ("REQUIREMENT" : String).isEmpty = false from rfl, Bool.false_eq_true,
      if_false]
    rw [hct]

theorem updateTaskStatus_tasks_of_none (st : WorkerState) (a b : String)
    (c : Option String) (h : st.tasks a = none) :
    (updateTaskStatus st a b c).tasks = st.tasks := by
  unfold updateTaskStatus
  simp only [h]

theorem stepAgent_done_facts (registry : String → Option AgentImpl) (now : String)
    (st : WorkerState) (agentName : String) (agent : AgentImpl) (ev evout : AgentEvent)
    (rest : List AgentEvent)
    (hq : st.queues ("queue:" ++ agentName) = ev :: rest)
    (hreg : registry agentName = some agent)
    (hproc : agent.process ev = Except.ok evout)
    (hnc : evout.task.needsClarification = false)
    (hna : evout.task.needsApproval = false)
    (herr : evout.task.hasError = false)
    (hnext : agent.nextAgent = none)
    (hname : ¬ agentName = "REQUIREMENT")
    (hrow : st.tasks ev.meta.eventId = none) :
    (stepAgent registry now st agentName).2 = StepOutcome.advanced
      ({ evout with
          task := { evout.task with currentStage := "DONE", status := "COMPLETED" }
          history := evout.history ++
            [{ stage := agentName, timestamp := now,
               message := "Processed by " ++ agent.displayName, outputSummary := none }] })
      none ∧
    (stepAgent registry now st agentName).1.queues =
      setQueue st.queues ("queue:" ++ agentName) rest ∧
    (stepAgent registry now st agentName).1.tasks = st.tasks := by
  unfold stepAgent
  simp only [hq, hreg, hproc, hnc, hna, herr, Bool.false_eq_true, if_false, hnext,
    Option.getD_none, Option.isNone_none, Option.isSome_none, if_true, hname]
  refine ⟨?_, ?_, ?_⟩
  · trivial
  · simp only [addLog_queues, updateTaskStatus_queues, addTaskEvent_queues]
  · rw [addLog_tasks, updateTaskStatus_tasks_of_none]
    · simp only [addTaskEvent_tasks, addLog_tasks]
    · simp only [addTaskEvent_tasks, addLog_tasks]
      exact hrow

theorem foldl_outcomes_fst (registry : String → Option AgentImpl) (now : String) :
    ∀ (l : List String) (acc : WorkerState × List (String × StepOutcome)),
      ((l.foldl (fun acc name =>
          let r := stepAgent registry now acc.1 name
          (r.1, acc.2 ++ [(name, r.2)])) acc).2).map Prod.fst =
        acc.2.map Prod.fst ++ l
  | [], acc => by simp
  | n :: rest, acc => by
    rw [List.foldl_cons, foldl_outcomes_fst registry now rest]
    simp

theorem processQueuesOnce_stages (registry : String → Option AgentImpl) (now : String)
    (st : WorkerState) :
    (processQueuesOnce registry now st).2.map Prod.fst = AGENT_ORDER := by
  unfold processQueuesOnce
  rw [foldl_outcomes_fst]
  simp

/-!
## C7 — one bad envelope or registration never stops the others
-/

/-- C7: (worker) when the REQUIREMENT handler raises on its envelope, the
tick still services every stage in order — the failure is recorded as an
`exnCaught` outcome with the task row marked FAILED, and an envelope queued
at the last stage is still processed to COMPLETED in the same tick;
(poller) when the status query for one registration raises, `poll_once`
still processes the other registrations — a merged one still fires its
callback and is removed, while the failing one stays registered for the
next cycle. -/
theorem failure_isolated_per_item
    (registryW : String → Option AgentImpl) (nowW : String) (stW : WorkerState)
    (agA agB : AgentImpl) (e1 e2 e2out : AgentEvent) (m : String)
    (hq1 : stW.queues "queue:REQUIREMENT" = [e1])
    (hq2 : stW.queues "queue:PLAN" = [])
    (hq3 : stW.queues "queue:UXUI" = [])
    (hq4 : stW.queues "queue:ARCHITECT" = [])
    (hq5 : stW.queues "queue:CODE" = [])
    (hq6 : stW.queues "queue:REFACTORING" = [])
    (hq7 : stW.queues "queue:TESTQA" = [])
    (hq8 : stW.queues "queue:DOC" = [])
    (hq9 : stW.queues "queue:RELEASE" = [])
    (hq10 : stW.queues "queue:MONITORING" = [])
    (hq11 : stW.queues "queue:EVALUATION" = [e2])
    (hr1 : registryW "REQUIREMENT" = some agA)
    (hr11 : registryW "EVALUATION" = some agB)
    (hpA : agA.process e1 = Except.error m)
    (hpB : agB.process e2 = Except.ok e2out)
    (hnc : e2out.task.needsClarification = false)
    (hna : e2out.task.needsApproval = false)
    (herr : e2out.task.hasError = false)
    (hnextB : agB.nextAgent = none)
    (htA : stW.tasks e1.meta.eventId = none)
    (htB : stW.tasks e2.meta.eventId = none)
    (hne : ¬ e2.meta.eventId = e1.meta.eventId)
    (envP : PollEnv) (nowP TP : Nat) (p1 p2 : PendingPR)
    (rv1 : List Review) (cm1 : List CommentData) (rv2 : List Review)
    (cm2 : List CommentData) (msgP : String)
    (hk : ¬ p2.eventId = p1.eventId)
    (hto1 : ¬ nowP - p1.createdAt > TP)
    (hto2 : ¬ nowP - p2.createdAt > TP)
    (hrev1 : envP.reviewsOf p1.prNumber p1.repoOwner p1.repoName = Except.ok (rv1, cm1))
    (hfb1 : getPendingFeedback p1.prNumber rv1 cm1 = none)
    (hst1 : envP.statusOf p1.prNumber = Except.error msgP)
    (hrev2 : envP.reviewsOf p2.prNumber p2.repoOwner p2.repoName = Except.ok (rv2, cm2))
    (hfb2 : getPendingFeedback p2.prNumber rv2 cm2 = none)
    (hst2 : envP.statusOf p2.prNumber = Except.ok (some "merged"))
    (hcb : envP.mergedCbSet = true) :
    ((processQueuesOnce registryW nowW stW).2.map Prod.fst = AGENT_ORDER ∧
     ("REQUIREMENT", StepOutcome.exnCaught m) ∈ (processQueuesOnce registryW nowW stW).2 ∧
     (∃ ev4, ("EVALUATION", StepOutcome.advanced ev4 none) ∈
        (processQueuesOnce registryW nowW stW).2 ∧ ev4.task.status = "COMPLETED") ∧
     (processQueuesOnce registryW nowW stW).1.tasks e1.meta.eventId =
       some { originalPrompt := e1.task.originalPrompt, status := "FAILED",
              currentStage := "REQUIREMENT" }) ∧
    (dget (pollOnce envP nowP TP [(p1.eventId, p1), (p2.eventId, p2)]).pending
       p1.eventId = some p1 ∧
     dget (pollOnce envP nowP TP [(p1.eventId, p1), (p2.eventId, p2)]).pending
       p2.eventId = none ∧
     (pollOnce envP nowP TP [(p1.eventId, p1), (p2.eventId, p2)]).mergedCalls.count
       p2.eventId = 1) := by
  have hs1 := stepAgent_exn_outcome registryW nowW stW "REQUIREMENT" agA e1 [] m hq1 hr1 hpA
  have ht1 := stepAgent_exn_tasks_requirement registryW nowW stW agA e1 [] m hq1 hr1 hpA htA
  set S1 := (stepAgent registryW nowW stW "REQUIREMENT").1 with hS1
  have hqS1 : ∀ name : String, ¬ ("queue:" ++ name) = "queue:REQUIREMENT" →
      S1.queues ("queue:" ++ name) = stW.queues ("queue:" ++ name) := by
    intro name hname
    rw [hs1.2.1]
    simp [setQueue, hname]
  have he2 := stepAgent_empty registryW nowW S1 "PLAN"
    (by rw [hqS1 "PLAN" (by simp)]; exact hq2)
  have he3 := stepAgent_empty registryW nowW S1 "UXUI"
    (by rw [hqS1 "UXUI" (by simp)]; exact hq3)
  have he4 := stepAgent_empty registryW nowW S1 "ARCHITECT"
    (by rw [hqS1 "ARCHITECT" (by simp)]; exact hq4)
  have he5 := stepAgent_empty registryW nowW S1 "CODE"
    (by rw [hqS1 "CODE" (by simp)]; exact hq5)
  have he6 := stepAgent_empty registryW nowW S1 "REFACTORING"
    (by rw [hqS1 "REFACTORING" (by simp)]; exact hq6)
  have he7 := stepAgent_empty registryW nowW S1 "TESTQA"
    (by rw [hqS1 "TESTQA" (by simp)]; exact hq7)
  have he8 := stepAgent_empty registryW nowW S1 "DOC"
    (by rw [hqS1 "DOC" (by simp)]; exact hq8)
  have he9 := stepAgent_empty registryW nowW S1 "RELEASE"
    (by rw [hqS1 "RELEASE" (by simp)]; exact hq9)
  have he10 := stepAgent_empty registryW nowW S1 "MONITORING"
    (by rw [hqS1 "MONITORING" (by simp)]; exact hq10)
  have htB1 : S1.tasks e2.meta.eventId = none := by
    rw [ht1.2, setKey_other _ _ _ _ hne, setKey_other _ _ _ _ hne]
    exact htB
  have hdone := stepAgent_done_facts registryW nowW S1 "EVALUATION" agB e2 e2out []
    (by rw [hqS1 "EVALUATION" (by simp)]; exact hq11) hr11 hpB hnc hna herr hnextB
    (by simp) htB1
  have hfold : processQueuesOnce registryW nowW stW =
      ((stepAgent registryW nowW S1 "EVALUATION").1,
       [("REQUIREMENT", (stepAgent registryW nowW stW "REQUIREMENT").2),
        ("PLAN", StepOutcome.emptyQueue), ("UXUI", StepOutcome.emptyQueue),
        ("ARCHITECT", StepOutcome.emptyQueue), ("CODE", StepOutcome.emptyQueue),
        ("REFACTORING", StepOutcome.emptyQueue), ("TESTQA", StepOutcome.emptyQueue),
        ("DOC", StepOutcome.emptyQueue), ("RELEASE", StepOutcome.emptyQueue),
        ("MONITORING", StepOutcome.emptyQueue),
        ("EVALUATION", (stepAgent registryW nowW S1 "EVALUATION").2)]) := by
    unfold processQueuesOnce AGENT_ORDER
    simp only [List.foldl_cons, List.foldl_nil, ← hS1, he2, he3, he4, he5, he6, he7, he8,
      he9, he10]
    rfl
  refine ⟨⟨processQueuesOnce_stages registryW nowW stW, ?_, ?_, ?_⟩, ?_, ?_, ?_⟩
  · rw [hfold, hs1.1]
    exact List.mem_cons_self _ _
  · refine ⟨{ e2out with
        task := { e2out.task with currentStage := "DONE", status := "COMPLETED" }
        history := e2out.history ++
          [{ stage := "EVALUATION", timestamp := nowW,
             message := "Processed by " ++ agB.displayName, outputSummary := none }] },
      ?_, rfl⟩
    rw [hfold, hdone.1]
    simp
  · rw [hfold]
    show (stepAgent registryW nowW S1 "EVALUATION").1.tasks e1.meta.eventId = _
    rw [hdone.2.2, ht1.2, setKey_self]
  · have hside : ((([] : List (String × PendingPR)) ++ [(p2.eventId, p2)]).all
        (fun e => e.2.eventId == e.1 && !(e.1 == p1.eventId))) = true := by
      simp [hk]
    have hlook := pollOnce_pending_lookup envP nowP TP [] [(p2.eventId, p2)] p1 hside
    rw [show ([] ++ (p1.eventId, p1) :: [(p2.eventId, p2)] :
        List (String × PendingPR)) = [(p1.eventId, p1), (p2.eventId, p2)] from rfl] at hlook
    rw [hlook, pollItem_errStay envP nowP TP p1 rv1 cm1 msgP hto1 hrev1 hfb1 hst1]
    simp [isCompletedOutcome]
  · have hside : (([(p1.eventId, p1)] ++ ([] : List (String × PendingPR))).all
        (fun e => e.2.eventId == e.1 && !(e.1 == p2.eventId))) = true := by
      simp
      intro hx
      exact absurd hx.symm hk
    have hlook := pollOnce_pending_lookup envP nowP TP [(p1.eventId, p1)] [] p2 hside
    rw [show ([(p1.eventId, p1)] ++ (p2.eventId, p2) :: [] :
        List (String × PendingPR)) = [(p1.eventId, p1), (p2.eventId, p2)] from rfl] at hlook
    rw [hlook, pollItem_merged envP nowP TP p2 rv2 cm2 hto2 hrev2 hfb2 hst2]
    simp [isCompletedOutcome]
  · have hside : (([(p1.eventId, p1)] ++ ([] : List (String × PendingPR))).all
        (fun e => e.2.eventId == e.1 && !(e.1 == p2.eventId))) = true := by
      simp
      intro hx
      exact absurd hx.symm hk
    have hcount := pollOnce_merged_count_middle envP nowP TP [(p1.eventId, p1)] [] p2 hside
    rw [show ([(p1.eventId, p1)] ++ (p2.eventId, p2) :: [] :
        List (String × PendingPR)) = [(p1.eventId, p1), (p2.eventId, p2)] from rfl] at hcount
    rw [hcount]
    simp [pollMergedCalls, pollCompleted, pollResults,
      pollItem_merged envP nowP TP p2 rv2 cm2 hto2 hrev2 hfb2 hst2, isCompletedOutcome,
      hcb, List.count_cons]

/-- C7 witness: the isolation theorem evaluated at concrete fixtures — a
raising REQUIREMENT handler next to a succeeding EVALUATION handler, and a
status-query failure for PR 1 next to a merged PR 2. -/
theorem failure_isolated_per_item_witness :
    (wStC7.queues "queue:REQUIREMENT" = [evtShort] ∧
     wStC7.queues "queue:EVALUATION" = [evtLong] ∧
     regC7 "REQUIREMENT" = some exnAgent ∧
     regC7 "EVALUATION" = some doneAgent ∧
     exnAgent.process evtShort = Except.error "boom" ∧
     doneAgent.process evtLong = Except.ok evtLong ∧
     doneAgent.nextAgent = none ∧
     envMix.statusOf ppA.prNumber = Except.error "api down" ∧
     envMix.statusOf ppB.prNumber = Except.ok (some "merged") ∧
     envMix.mergedCbSet = true) ∧
    (((processQueuesOnce regC7 "tsW" wStC7).2.map Prod.fst = AGENT_ORDER ∧
      ("REQUIREMENT", StepOutcome.exnCaught "boom") ∈
        (processQueuesOnce regC7 "tsW" wStC7).2 ∧
      (∃ ev4, ("EVALUATION", StepOutcome.advanced ev4 none) ∈
         (processQueuesOnce regC7 "tsW" wStC7).2 ∧ ev4.task.status = "COMPLETED") ∧
      (processQueuesOnce regC7 "tsW" wStC7).1.tasks evtShort.meta.eventId =
        some { originalPrompt := evtShort.task.originalPrompt, status := "FAILED",
               currentStage := "REQUIREMENT" }) ∧
     (dget (pollOnce envMix 0 0 [(ppA.eventId, ppA), (ppB.eventId, ppB)]).pending
        ppA.eventId = some ppA ∧
      dget (pollOnce envMix 0 0 [(ppA.eventId, ppA), (ppB.eventId, ppB)]).pending
        ppB.eventId = none ∧
      (pollOnce envMix 0 0 [(ppA.eventId, ppA), (ppB.eventId, ppB)]).mergedCalls.count
        ppB.eventId = 1)) :=
  ⟨⟨rfl, rfl, rfl, rfl, rfl, rfl, rfl, rfl, rfl, rfl⟩,
   failure_isolated_per_item regC7 "tsW" wStC7 exnAgent doneAgent evtShort evtLong evtLong
     "boom" rfl rfl rfl rfl rfl rfl rfl rfl rfl rfl rfl rfl rfl rfl rfl rfl rfl rfl
     rfl rfl rfl (by decide) envMix 0 0 ppA ppB [] [] [] [] "api down" (by decide)
     (by decide) (by decide) rfl rfl rfl rfl rfl rfl rfl⟩

end RemoteDev
